import Mathlib

/-!
Verification of `strava_to_garmin_sync.py` against its natural-language
specification.

The Python source is shallowly embedded below.  Conventions of the embedding:

* Python floats that flow through the converter are modelled as rationals
  (`ℚ`); Python's `int(x)` truncation toward zero is `pyInt`; the f-string
  rendering of a float value is `pyRepr` (integer part, '.', fractional
  digits — `pyRepr` renders whole numbers as `"n.0"` exactly as Python's
  `repr`/`str` of a whole float does).
* Python dict lookups with defaults (`activity.get(k, 0)`,
  `streams.get(k, {}).get('data', [])`) are modelled with `Option` fields
  and `Option.getD`.
* `datetime` values are modelled as seconds since the Unix epoch (`ℤ`);
  `datetime.strptime(_, '%Y-%m-%dT%H:%M:%SZ')` is `strptime` (returning
  `none` where Python raises `ValueError`) and
  `strftime('%Y-%m-%dT%H:%M:%SZ')` is `fmtTime`, implemented with the
  standard proleptic-Gregorian civil-date arithmetic.  Stream time offsets
  are integer seconds, as delivered by the source service.
* Fallible Python code is embedded with `Except`/`PyResult`: an embedded
  function returning `Except String α` yields `.error e` exactly where the
  Python raises an uncaught exception.
-/

namespace StoG

/-- Characters for a single decimal digit (`0 ≤ n ≤ 9` in all uses). -/
def digitChar (n : ℕ) : Char := Nat.digitChar n

/-- Decimal digit list of a natural number, most significant first.
Fuel-structured so that it reduces in the kernel; `natStr` supplies
sufficient fuel. -/
def natDigsF : ℕ → ℕ → List Char
  | 0, _ => []
  | fuel + 1, n => if n < 10 then [digitChar n] else natDigsF fuel (n / 10) ++ [digitChar (n % 10)]

/-- Decimal string of a natural number (Python `str` on a non-negative int). -/
def natStr (n : ℕ) : String := ⟨natDigsF (n + 1) n⟩

/-- Decimal string of an integer (Python `str`/f-string rendering of an int). -/
def intStr (z : ℤ) : String := (if z < 0 then "-" else "") ++ natStr z.natAbs

/-- Python `int(x)`: truncation toward zero. -/
def pyInt (q : ℚ) : ℤ := if 0 ≤ q then ⌊q⌋ else ⌈q⌉

/-- Fractional decimal digits of `r` (`0 ≤ r < 1` in all uses), fuel-bounded. -/
def fracDigs : ℕ → ℚ → List Char
  | 0, _ => []
  | fuel + 1, r => if r = 0 then [] else digitChar (⌊r * 10⌋).toNat :: fracDigs fuel (Int.fract (r * 10))

/-- Python's f-string rendering of a float value, modelled over `ℚ`:
sign, integer part, '.', fractional digits (a whole number renders as
`"n.0"`, matching Python's rendering of whole floats). -/
def pyRepr (q : ℚ) : String :=
  (if q < 0 then "-" else "") ++ natStr (⌊|q|⌋).toNat ++ "." ++
    (if Int.fract |q| = 0 then "0" else ⟨fracDigs 1200 (Int.fract |q|)⟩)

/-- Two-digit zero-padded rendering (strftime `%m`/`%d`/`%H`/`%M`/`%S`). -/
def pad2 (n : ℕ) : String := if n < 10 then "0" ++ natStr n else natStr n

/-- Four-digit zero-padded rendering (strftime `%Y`). -/
def pad4 (n : ℕ) : String :=
  if n < 10 then "000" ++ natStr n
  else if n < 100 then "00" ++ natStr n
  else if n < 1000 then "0" ++ natStr n
  else natStr n

/-- Gregorian leap-year test. -/
def leapYear (y : ℕ) : Bool := (y % 4 == 0 && y % 100 != 0) || y % 400 == 0

/-- Days in a month of the Gregorian calendar. -/
def daysInMonth (y : ℕ) (m : ℕ) : ℕ :=
  if m = 2 then (if leapYear y then 29 else 28)
  else if m = 4 ∨ m = 6 ∨ m = 9 ∨ m = 11 then 30
  else 31

/-- Days from the civil epoch 1970-01-01 to year `y`, month `m`, day `d`
(Gregorian; the standard days-from-civil algorithm). -/
def daysFromCivil (y : ℕ) (m d : ℕ) : ℤ :=
  let y' : ℤ := (y : ℤ) - (if m ≤ 2 then 1 else 0)
  let era : ℤ := y'.fdiv 400
  let yoe : ℕ := (y' - era * 400).toNat
  let mp : ℕ := if 2 < m then m - 3 else m + 9
  let doy : ℕ := (153 * mp + 2) / 5 + d - 1
  let doe : ℕ := yoe * 365 + yoe / 4 - yoe / 100 + doy
  era * 146097 + (doe : ℤ) - 719468

/-- Civil date (year, month, day) of a day count relative to 1970-01-01
(the standard civil-from-days algorithm). -/
def civilFromDays (z : ℤ) : ℤ × ℕ × ℕ :=
  let z' : ℤ := z + 719468
  let era : ℤ := z'.fdiv 146097
  let doe : ℕ := (z' - era * 146097).toNat
  let yoe : ℕ := (doe - doe / 1460 + doe / 36524 - doe / 146096) / 365
  let doy : ℕ := doe - (365 * yoe + yoe / 4 - yoe / 100)
  let mp : ℕ := (5 * doy + 2) / 153
  let d : ℕ := doy - (153 * mp + 2) / 5 + 1
  let m : ℕ := if mp < 10 then mp + 3 else mp - 9
  (era * 400 + (yoe : ℤ) + (if m ≤ 2 then 1 else 0), m, d)

/-- `strftime('%Y-%m-%dT%H:%M:%SZ')` on an epoch-seconds timestamp. -/
def fmtTime (t : ℤ) : String :=
  let days : ℤ := t.fdiv 86400
  let secs : ℕ := (t - days * 86400).toNat
  let c := civilFromDays days
  pad4 c.1.toNat ++ "-" ++ pad2 c.2.1 ++ "-" ++ pad2 c.2.2 ++ "T" ++
    pad2 (secs / 3600) ++ ":" ++ pad2 (secs % 3600 / 60) ++ ":" ++ pad2 (secs % 60) ++ "Z"

/-- Numeric value of two ASCII digit characters. -/
def twoDigits (a b : Char) : ℕ := (a.toNat - 48) * 10 + (b.toNat - 48)

/-- `datetime.strptime(s, '%Y-%m-%dT%H:%M:%SZ')` as epoch seconds;
`none` where Python raises `ValueError` (wrong shape, non-digits, or
field out of range for `datetime`). -/
def strptime (str : String) : Option ℤ :=
  match str.data with
  | [y1, y2, y3, y4, p1, mo1, mo2, p2, dd1, dd2, p3, hh1, hh2, p4, mi1, mi2, p5, ss1, ss2, p6] =>
    if (y1.isDigit && y2.isDigit && y3.isDigit && y4.isDigit &&
        mo1.isDigit && mo2.isDigit && dd1.isDigit && dd2.isDigit &&
        hh1.isDigit && hh2.isDigit && mi1.isDigit && mi2.isDigit &&
        ss1.isDigit && ss2.isDigit) &&
       (p1 == '-' && p2 == '-' && p3 == 'T' && p4 == ':' && p5 == ':' && p6 == 'Z') then
      let y := twoDigits y1 y2 * 100 + twoDigits y3 y4
      let mo := twoDigits mo1 mo2
      let dd := twoDigits dd1 dd2
      let hh := twoDigits hh1 hh2
      let mi := twoDigits mi1 mi2
      let ss := twoDigits ss1 ss2
      if 1 ≤ y && 1 ≤ mo && mo ≤ 12 && 1 ≤ dd && dd ≤ daysInMonth y mo &&
         hh ≤ 23 && mi ≤ 59 && ss ≤ 59 then
        some (daysFromCivil y mo dd * 86400 + ((hh : ℤ) * 3600 + mi * 60 + ss))
      else none
    else none
  | _ => none

/-- One Strava activity as used by the script.  Optional fields model JSON
keys read with `activity.get(...)` (absent key, or present with `null` —
both behave alike in every use below); the `a.field` accesses of keys the
script reads unconditionally are mandatory fields. -/
structure Activity where
  name : String
  type : String
  start_date : String
  elapsed_time : ℤ
  distance : ℚ
  max_speed : Option ℚ
  calories : Option ℚ
  average_heartrate : Option ℚ
  max_heartrate : Option ℚ
  average_watts : Option ℚ
  max_watts : Option ℚ
  average_cadence : Option ℚ
  weighted_average_watts : Option ℚ
  description : Option String
  gear_id : Option String
deriving DecidableEq

/-- The per-activity stream bundle (the JSON dict returned by the streams
endpoint, keyed by type).  A field is `some l` when the key is present and
`streams.get(key, {}).get('data', [])` yields `l`; it is `none` when the
key is absent.  (A key present without a `'data'` entry behaves exactly as
a present key with an empty list, so it is modelled by `some []`.) -/
structure Streams where
  time : Option (List ℤ)
  latlng : Option (List (ℚ × ℚ))
  altitude : Option (List ℚ)
  heartrate : Option (List ℚ)
  cadence : Option (List ℚ)
  watts : Option (List ℚ)
  temp : Option (List ℚ)
deriving DecidableEq

/-- `get_sport_type` (source lines 239–250): the fixed lookup table with
default `'Other'`. -/
def get_sport_type (strava_type : String) : String :=
  if strava_type = "Ride" then "Biking"
  else if strava_type = "Run" then "Running"
  else if strava_type = "Swim" then "Swimming"
  else if strava_type = "Walk" then "Walking"
  else if strava_type = "Hike" then "Hiking"
  else if strava_type = "VirtualRide" then "Biking"
  else if strava_type = "Workout" then "Other"
  else "Other"

/-- Concatenation of a list of strings (the Python `tcx += ...` chain;
each list element is one appended chunk or one interpolated value). -/
def strJoin : List String → String
  | [] => ""
  | s :: rest => s ++ strJoin rest

/-- The `activity_notes` string (source lines 142–146).  Python's
truthiness test `if activity.get('description'):` is false both for an
absent key and for an empty string, likewise for `gear_id`. -/
def notesStr (a : Activity) : String :=
  a.name ++
    (match a.description with
     | some d => if d ≠ "" then " - " ++ d else ""
     | none => "") ++
    (match a.gear_id with
     | some g => if g ≠ "" then " | Gear: " ++ g else ""
     | none => "")

/-- The initial f-string of the document (source lines 148–159): XML
prolog, schema and extension namespaces, activity element, notes, lap
opening and its unconditional fields.  `activity.get('max_speed', 0)` and
`activity.get('calories', 0)` default to the int `0`, rendered `"0"`. -/
def headerStr (a : Activity) : String :=
  strJoin
    ["<?xml version=\"1.0\" encoding=\"UTF-8\"?>\n<TrainingCenterDatabase xmlns=\"http://www.garmin.com/xmlschemas/TrainingCenterDatabase/v2\"\n                        xmlns:ns3=\"http://www.garmin.com/xmlschemas/ActivityExtension/v2\">\n  <Activities>\n    <Activity Sport=\"",
     get_sport_type a.type, "\">\n      <Id>", a.start_date, "</Id>\n      <Notes>",
     notesStr a, "</Notes>\n      <Lap StartTime=\"", a.start_date,
     "\">\n        <TotalTimeSeconds>", intStr a.elapsed_time,
     "</TotalTimeSeconds>\n        <DistanceMeters>", pyRepr a.distance,
     "</DistanceMeters>\n        <MaximumSpeed>",
     (match a.max_speed with | some v => pyRepr v | none => "0"),
     "</MaximumSpeed>\n        <Calories>",
     (match a.calories with | some v => pyRepr v | none => "0"), "</Calories>"]

/-- Lap heart-rate block (source lines 161–165): emitted iff `avg_hr` is
truthy, i.e. non-zero. -/
def hrBlock (avg_hr max_hr : ℚ) : String :=
  if avg_hr ≠ 0 then
    strJoin
      ["\n        <AverageHeartRateBpm><Value>", intStr (pyInt avg_hr),
       "</Value></AverageHeartRateBpm>\n        <MaximumHeartRateBpm><Value>",
       intStr (pyInt max_hr), "</Value></MaximumHeartRateBpm>"]
  else ""

/-- Lap `AvgWatts`/`MaxWatts` lines (source lines 176–179). -/
def lapWatts (avg_watts max_watts : ℚ) : String :=
  if avg_watts ≠ 0 then
    strJoin
      ["\n            <ns3:AvgWatts>", intStr (pyInt avg_watts),
       "</ns3:AvgWatts>\n            <ns3:MaxWatts>", intStr (pyInt max_watts),
       "</ns3:MaxWatts>"]
  else ""

/-- Lap `AvgRunCadence` line (source lines 180–182). -/
def lapCadence (avg_cadence : ℚ) : String :=
  if avg_cadence ≠ 0 then
    strJoin ["\n            <ns3:AvgRunCadence>", intStr (pyInt avg_cadence),
             "</ns3:AvgRunCadence>"]
  else ""

/-- Lap power/cadence extension block (source lines 171–185). -/
def extBlock (avg_watts max_watts avg_cadence : ℚ) : String :=
  if avg_watts ≠ 0 ∨ avg_cadence ≠ 0 then
    strJoin
      ["\n        <Extensions>\n          <ns3:LX>", lapWatts avg_watts max_watts,
       lapCadence avg_cadence, "\n          </ns3:LX>\n        </Extensions>"]
  else ""

/-- The lap-statistics region of the document (source lines 161–185):
optional heart-rate block, the fixed intensity/trigger lines, optional
power/cadence extension block.  The averages are
`activity.get('average_heartrate', 0)` etc. -/
def lapStats (a : Activity) : String :=
  strJoin
    [hrBlock (a.average_heartrate.getD 0) (a.max_heartrate.getD 0),
     "\n        <Intensity>Active</Intensity>\n        <TriggerMethod>Manual</TriggerMethod>",
     extBlock (a.average_watts.getD 0) (a.max_watts.getD 0) (a.average_cadence.getD 0)]

/-- Track-point position block (source lines 197–202): emitted iff
`i < len(latlng_data)`. -/
def renderPos : Option (ℚ × ℚ) → String
  | none => ""
  | some (lat, lng) =>
    strJoin
      ["            <Position>\n              <LatitudeDegrees>", pyRepr lat,
       "</LatitudeDegrees>\n              <LongitudeDegrees>", pyRepr lng,
       "</LongitudeDegrees>\n            </Position>\n"]

/-- Track-point altitude line (source lines 204–205). -/
def renderAlt : Option ℚ → String
  | none => ""
  | some v => strJoin ["            <AltitudeMeters>", pyRepr v, "</AltitudeMeters>\n"]

/-- Track-point heart-rate line (source lines 207–208). -/
def renderTpHr : Option ℚ → String
  | none => ""
  | some v =>
    strJoin ["            <HeartRateBpm><Value>", intStr (pyInt v),
             "</Value></HeartRateBpm>\n"]

/-- Track-point cadence line (source lines 211–212). -/
def renderCad : Option ℚ → String
  | none => ""
  | some v => strJoin ["            <Cadence>", intStr (pyInt v), "</Cadence>\n"]

/-- Track-point `Watts` line (source lines 220–221). -/
def wattsLine : Option ℚ → String
  | none => ""
  | some v => strJoin ["                <ns3:Watts>", intStr (pyInt v), "</ns3:Watts>\n"]

/-- Track-point `AirTemperature` line (source lines 223–224). -/
def tempLine : Option ℚ → String
  | none => ""
  | some v =>
    strJoin ["                <ns3:AirTemperature>", intStr (pyInt v),
             "</ns3:AirTemperature>\n"]

/-- Track-point power/temperature extension block (source lines 215–227):
the wrapper is emitted iff at least one of the two is available at this
index (`has_extensions`). -/
def renderTpExt : Option ℚ → Option ℚ → String
  | none, none => ""
  | w, tm =>
    strJoin
      ["            <Extensions>\n              <ns3:TPX>\n", wattsLine w, tempLine tm,
       "              </ns3:TPX>\n            </Extensions>\n"]

/-- The chunks appended for the `i`-th track point (source lines 192–229);
`st` is the parsed start time in epoch seconds and `t` the `i`-th time
offset.  `s.latlng.getD []` etc. are the `x_data` extractions of source
lines 125–131. -/
def trackpointPieces (st : ℤ) (s : Streams) (i : ℕ) (t : ℤ) : List String :=
  ["          <Trackpoint>\n            <Time>", fmtTime (st + t), "</Time>\n",
   renderPos (s.latlng.getD [])[i]?,
   renderAlt (s.altitude.getD [])[i]?,
   renderTpHr (s.heartrate.getD [])[i]?,
   renderCad (s.cadence.getD [])[i]?,
   renderTpExt (s.watts.getD [])[i]? (s.temp.getD [])[i]?,
   "          </Trackpoint>\n"]

/-- The string appended for the `i`-th track point. -/
def trackpoint (st : ℤ) (s : Streams) (i : ℕ) (t : ℤ) : String :=
  strJoin (trackpointPieces st s i t)

/-- The full document for an activity whose bundle contains a `time` key,
given the parsed start time `st` (source lines 148–235). -/
def tcxDoc (a : Activity) (s : Streams) (st : ℤ) : String :=
  strJoin
    [headerStr a, lapStats a, "\n        <Track>\n",
     strJoin (((s.time.getD []).enum).map fun it => trackpoint st s it.1 it.2),
     "        </Track>\n      </Lap>\n    </Activity>\n  </Activities>\n</TrainingCenterDatabase>"]

/-- `convert_strava_to_tcx` (source lines 116–237).  `streams = none`
models `streams is None`; an all-`none` `Streams` models the falsy empty
dict — both ways, `not streams or 'time' not in streams` is equivalent to
the `time` key being absent.  `.error` models the uncaught `ValueError`
of `datetime.strptime` on a malformed `start_date`; `.ok none` is the
`return None` of line 119. -/
def convert_strava_to_tcx (activity : Activity) (streams : Option Streams) :
    Except String (Option String) :=
  match streams with
  | none => .ok none
  | some s =>
    match s.time with
    | none => .ok none
    | some _ =>
      match strptime activity.start_date with
      | none => .error "ValueError"
      | some st => .ok (some (tcxDoc activity s st))

/-- Outcome of a Python expression: normal value or raised exception. -/
inductive PyResult (α : Type) where
  | ok : α → PyResult α
  | exc : String → PyResult α
deriving DecidableEq

/-- The filesystem state visible to `upload_to_garmin`: the set of files
currently present, as a list of paths. -/
structure FS where
  files : List String
deriving DecidableEq

/-- `open(temp_file, 'w').write(...)`: creates (or overwrites) the file. -/
def pyWrite (path : String) (fs : FS) : FS :=
  if path ∈ fs.files then fs else ⟨path :: fs.files⟩

/-- `os.remove(path)`: deletes the file, raising `FileNotFoundError` if absent. -/
def pyRemove (path : String) (fs : FS) : PyResult Unit × FS :=
  if path ∈ fs.files then (.ok (), ⟨fs.files.erase path⟩) else (.exc "FileNotFoundError", fs)

/-- The temporary file name `f'/tmp/strava_activity_{int(time.time())}.tcx'`
(source line 256), `now` being the current epoch second. -/
def tempName (now : ℤ) : String := "/tmp/strava_activity_" ++ intStr now ++ ".tcx"

/-- `upload_to_garmin` (source lines 252–269).  `uploadOutcome` is the
behaviour of the external `garmin.upload_activity(temp_file)` call: a
returned value or a raised exception; it reads the file and leaves our
filesystem state unchanged.  The whole body sits in `try/except
Exception`, whose handler logs and returns `None`, so every raised step
jumps to the `(none, _)` result and skips the rest of the body — in
particular `os.remove` runs only when the upload call returns normally. -/
def upload_to_garmin {α : Type} (uploadOutcome : PyResult α) (now : ℤ)
    (tcx_data : String) (fs : FS) : Option α × FS :=
  let temp_file := tempName now
  let fs1 := pyWrite temp_file fs
  match uploadOutcome with
  | .exc _ => (none, fs1)
  | .ok result =>
    match pyRemove temp_file fs1 with
    | (.exc _, fs2) => (none, fs2)
    | (.ok _, fs2) => (some result, fs2)
  -- `tcx_data` is the written content; only the file's existence matters here
  -- (content is irrelevant to every claim about this function).

/-- Observable steps of the per-activity loop body (source lines 300–339). -/
inductive Event where
  | checkedDuplicate
  | downloadedStreams
  | convertAttempted
  | uploadAttempted
  | slept (secs : ℕ)
deriving DecidableEq

/-- The external outcomes one loop iteration can encounter:
`isDuplicate` is the result of `activity_exists_in_garmin`, `streams` the
result of `download_activity_gpx`, and `uploadResult` the value returned
by `upload_to_garmin` — `none` when that helper swallowed an exception
and returned `None`, `some b` when it returned the service's result
object, `b` being that object's truthiness. -/
structure Oracle where
  isDuplicate : Bool
  streams : Option Streams
  uploadResult : Option Bool
deriving DecidableEq

/-- Truthiness of the downloaded bundle (`if not streams:`, line 316):
`None` and the empty dict are falsy. -/
def streamsTruthy : Option Streams → Bool
  | none => false
  | some s =>
    s.time.isSome || s.latlng.isSome || s.altitude.isSome || s.heartrate.isSome ||
      s.cadence.isSome || s.watts.isSome || s.temp.isSome

/-- Truthiness of the conversion result (`if not tcx_data:`, line 324). -/
def tcxTruthy : Option String → Bool
  | none => false
  | some d => d ≠ ""

/-- Whether the conversion step yields a truthy document (so the loop
proceeds to the upload attempt). -/
def convertTruthy (a : Activity) (so : Option Streams) : Bool :=
  match convert_strava_to_tcx a so with
  | .ok tcx => tcxTruthy tcx
  | .error _ => false

/-- One iteration of the orchestrator's per-activity loop (source lines
300–339): returns the events performed, the increment to `uploaded_count`
and the increment to `skipped_count`.  `.exc` models an exception
propagating out of the loop (only `datetime.strptime` on line 303 or the
converter can raise).  The three `continue` paths return without a
`slept` event — `time.sleep(2)` on line 339 is reached only after the
upload attempt. -/
def processActivity (o : Oracle) (a : Activity) : PyResult (List Event × ℕ × ℕ) :=
  match strptime a.start_date with
  | none => .exc "ValueError"
  | some _ =>
    if o.isDuplicate then .ok ([.checkedDuplicate], 0, 1)
    else if streamsTruthy o.streams = false then
      .ok ([.checkedDuplicate, .downloadedStreams], 0, 1)
    else
      match convert_strava_to_tcx a o.streams with
      | .error e => .exc e
      | .ok tcx =>
        if tcxTruthy tcx = false then
          .ok ([.checkedDuplicate, .downloadedStreams, .convertAttempted], 0, 1)
        else
          match o.uploadResult with
          | some true =>
            .ok ([.checkedDuplicate, .downloadedStreams, .convertAttempted,
                  .uploadAttempted, .slept 2], 1, 0)
          | _ =>
            .ok ([.checkedDuplicate, .downloadedStreams, .convertAttempted,
                  .uploadAttempted, .slept 2], 0, 1)

/-- The whole per-activity loop (source lines 300–339), folding the two
counters over the fetched activities, each paired with its external
outcomes.  An exception in an iteration aborts the run. -/
def runLoop : List (Oracle × Activity) → PyResult (ℕ × ℕ)
  | [] => .ok (0, 0)
  | (o, a) :: rest =>
    match processActivity o a with
    | .exc e => .exc e
    | .ok (_, u, s) =>
      match runLoop rest with
      | .exc e => .exc e
      | .ok (u', s') => .ok (u + u', s + s')

/-- Decidable equality for `Except` results, used to evaluate the embedded
converter on concrete inputs. -/
instance {ε α : Type} [DecidableEq ε] [DecidableEq α] : DecidableEq (Except ε α) := by
  intro x y
  cases x <;> cases y
  case error.error a b =>
    exact if h : a = b then isTrue (by rw [h]) else
      isFalse (by intro e; injection e; exact h (by assumption))
  case ok.ok a b =>
    exact if h : a = b then isTrue (by rw [h]) else
      isFalse (by intro e; injection e; exact h (by assumption))
  case error.ok a b => exact isFalse (by intro e; injection e)
  case ok.error a b => exact isFalse (by intro e; injection e)

/-! ### A small substring-occurrence toolkit

`Occurs pat s` states that the character sequence of `pat` appears
contiguously inside `s`.  `pairFree a b l` states that the two-character
sequence `a b` never appears in `l`; it is the workhorse for proving that
a tag does *not* occur in a rendered region. -/

/-- `listLE p l`: `p` is an initial segment of `l`. -/
def listLE : List Char → List Char → Bool
  | [], _ => true
  | _ :: _, [] => false
  | a :: p, b :: l => a == b && listLE p l

/-- `occursB p l`: `p` occurs contiguously inside `l`. -/
def occursB (p : List Char) : List Char → Bool
  | [] => listLE p []
  | b :: t => listLE p (b :: t) || occursB p t

/-- `pat` occurs contiguously in `s`. -/
abbrev Occurs (pat s : String) : Prop := occursB pat.data s.data = true

/-- No adjacent pair `a b` anywhere in the list. -/
def pairFree (a b : Char) : List Char → Bool
  | [] => true
  | [_] => true
  | x :: y :: rest => !(x == a && y == b) && pairFree a b (y :: rest)

/-! ### Concrete fixtures for counterexamples and witnesses -/

/-- A bundle whose `time` key is present but whose offset list is empty. -/
def strEmptyTime : Streams :=
  { time := some [], latlng := none, altitude := none, heartrate := none,
    cadence := none, watts := none, temp := none }

/-- A small full bundle: one offset; position, altitude, heart rate and
temperature data at index 0; an empty cadence list; no watts key. -/
def strFull : Streams :=
  { time := some [0, 2], latlng := some [(50, 4)], altitude := some [201/2],
    heartrate := some [301/2], cadence := some [], watts := none, temp := some [21] }

/-- The §8 scenario activity: a Ride with average heart rate 140 and
average power 0. -/
def actRide : Activity :=
  { name := "Morning Ride", type := "Ride", start_date := "2024-06-01T10:00:00Z",
    elapsed_time := 3600, distance := 25000, max_speed := some (31/2), calories := some 600,
    average_heartrate := some 140, max_heartrate := some 160, average_watts := some 0,
    max_watts := none, average_cadence := none, weighted_average_watts := none,
    description := none, gear_id := none }

/-- An activity whose display name contains an ampersand. -/
def actAmp : Activity :=
  { name := "Run & Coffee", type := "Run", start_date := "2024-06-01T10:00:00Z",
    elapsed_time := 1200, distance := 5000, max_speed := none, calories := none,
    average_heartrate := none, max_heartrate := none, average_watts := none,
    max_watts := none, average_cadence := none, weighted_average_watts := none,
    description := none, gear_id := none }

/-- Oracle for an activity already present in the destination service. -/
def oracleDup : Oracle := { isDuplicate := true, streams := none, uploadResult := none }

/-- Oracle for an activity that goes all the way to a successful upload. -/
def oracleFull : Oracle :=
  { isDuplicate := false, streams := some strFull, uploadResult := some true }

/-! ### Toolkit lemmas -/

theorem listLE_iff (p : List Char) : ∀ l, listLE p l = true ↔ ∃ v, l = p ++ v := by
  induction p with
  | nil =>
    intro l
    simp [listLE]
  | cons a p ih =>
    intro l
    cases l with
    | nil =>
      simp [listLE]
    | cons b l =>
      simp only [listLE, Bool.and_eq_true, beq_iff_eq, ih l, List.cons_append, List.cons.injEq]
      constructor
      · rintro ⟨rfl, v, rfl⟩
        exact ⟨v, rfl, rfl⟩
      · rintro ⟨v, rfl, rfl⟩
        exact ⟨rfl, v, rfl⟩

theorem occursB_iff (p : List Char) : ∀ l, occursB p l = true ↔ ∃ u v, l = u ++ p ++ v := by
  intro l
  induction l with
  | nil =>
    simp only [occursB, listLE_iff]
    constructor
    · rintro ⟨v, hv⟩
      exact ⟨[], v, by simpa using hv⟩
    · rintro ⟨u, v, huv⟩
      rcases List.append_eq_nil.mp (List.append_eq_nil.mp huv.symm).1 with ⟨h1, h2⟩
      exact ⟨[], by simp [h2, (List.append_eq_nil.mp huv.symm).2]⟩
  | cons b t ih =>
    simp only [occursB, Bool.or_eq_true, listLE_iff, ih]
    constructor
    · rintro (⟨v, hv⟩ | ⟨u, v, huv⟩)
      · exact ⟨[], v, by simpa using hv⟩
      · exact ⟨b :: u, v, by simp [huv]⟩
    · rintro ⟨u, v, huv⟩
      cases u with
      | nil =>
        exact Or.inl ⟨v, by simpa using huv⟩
      | cons c u =>
        right
        rw [List.cons_append, List.cons_append] at huv
        injection huv with hb ht
        exact ⟨u, v, ht⟩

theorem occurs_trans {p q l : List Char} (hpq : occursB p q = true)
    (hql : occursB q l = true) : occursB p l = true := by
  rcases (occursB_iff p q).mp hpq with ⟨u1, v1, h1⟩
  rcases (occursB_iff q l).mp hql with ⟨u2, v2, h2⟩
  refine (occursB_iff p l).mpr ⟨u2 ++ u1, v1 ++ v2, ?_⟩
  rw [h2, h1]
  simp

theorem occurs_append_right {p l : List Char} (r : List Char)
    (h : occursB p l = true) : occursB p (l ++ r) = true := by
  rcases (occursB_iff p l).mp h with ⟨u, v, rfl⟩
  exact (occursB_iff p _).mpr ⟨u, v ++ r, by simp⟩

theorem occurs_append_left {p l : List Char} (r : List Char)
    (h : occursB p l = true) : occursB p (r ++ l) = true := by
  rcases (occursB_iff p l).mp h with ⟨u, v, rfl⟩
  exact (occursB_iff p _).mpr ⟨r ++ u, v, by simp⟩

theorem occurs_self (p : List Char) : occursB p p = true :=
  (occursB_iff p p).mpr ⟨[], [], by simp⟩

theorem mem_of_occurs {p l : List Char} (h : occursB p l = true) {c : Char}
    (hc : c ∈ p) : c ∈ l := by
  rcases (occursB_iff p l).mp h with ⟨u, v, rfl⟩
  simp [hc]

theorem not_occurs_of_char {p l : List Char} (c : Char) (hc : c ∈ p)
    (hl : c ∉ l) : occursB p l = false := by
  cases h : occursB p l with
  | false => rfl
  | true => exact absurd (mem_of_occurs h hc) hl

theorem pairFree_cons {a b x : Char} {l : List Char}
    (h : pairFree a b (x :: l) = true) : pairFree a b l = true := by
  cases l with
  | nil => rfl
  | cons y l =>
    simp only [pairFree, Bool.and_eq_true] at h
    exact h.2

theorem pairFree_split (a b : Char) : ∀ u v : List Char,
    pairFree a b (u ++ a :: b :: v) = false := by
  intro u
  induction u with
  | nil =>
    intro v
    simp [pairFree]
  | cons x u ih =>
    intro v
    cases u with
    | nil =>
      simp only [List.nil_append, List.cons_append, pairFree]
      simp [ih v]
    | cons y u =>
      simp only [List.cons_append, pairFree]
      have := ih v
      simp only [List.cons_append] at this
      simp [this]

theorem not_occurs_of_pairFree {pat l : List Char} {a b : Char}
    (hab : occursB [a, b] pat = true) (hfree : pairFree a b l = true) :
    occursB pat l = false := by
  cases h : occursB pat l with
  | false => rfl
  | true =>
    exfalso
    have h2 : occursB [a, b] l = true := occurs_trans hab h
    rcases (occursB_iff [a, b] l).mp h2 with ⟨u, v, rfl⟩
    have := pairFree_split a b u v
    simp only [List.append_assoc, List.cons_append, List.nil_append] at this hfree
    rw [hfree] at this
    cases this

theorem pairFree_of_not_mem_snd {b : Char} (a : Char) : ∀ {l : List Char}, b ∉ l →
    pairFree a b l = true := by
  intro l
  induction l with
  | nil => intro; rfl
  | cons x l ih =>
    intro h
    cases l with
    | nil => rfl
    | cons y l =>
      have hy : b ∉ y :: l := fun hm => h (List.mem_cons_of_mem x hm)
      have hyb : (y == b) = false := by
        simp only [List.mem_cons, not_or] at h
        exact beq_eq_false_iff_ne.mpr fun e => h.2.1 e.symm
      simp only [pairFree, Bool.and_eq_true, Bool.not_eq_true']
      exact ⟨by simp [hyb], ih hy⟩

theorem mem_of_getLast?_eq : ∀ {l : List Char} {a : Char}, l.getLast? = some a → a ∈ l := by
  intro l
  induction l with
  | nil => intro a h; simp at h
  | cons x t ih =>
    intro a h
    cases t with
    | nil =>
      have : x = a := by
        have h' : some x = some a := h
        injection h'
      simp [this]
    | cons y t' =>
      rw [List.getLast?_cons_cons] at h
      exact List.mem_cons_of_mem x (ih h)

theorem getLast?_ne_of_not_mem {a : Char} {l : List Char} (h : a ∉ l) :
    l.getLast? ≠ some a := by
  intro hl
  exact h (mem_of_getLast?_eq hl)

theorem pairFree_append {a b : Char} : ∀ {l₁ l₂ : List Char},
    pairFree a b l₁ = true → pairFree a b l₂ = true → l₁.getLast? ≠ some a →
    pairFree a b (l₁ ++ l₂) = true := by
  intro l₁
  induction l₁ with
  | nil => intro l₂ _ h2 _; simpa using h2
  | cons x l₁ ih =>
    intro l₂ h1 h2 hlast
    cases l₁ with
    | nil =>
      cases l₂ with
      | nil => rfl
      | cons y l₂ =>
        have hxa : x ≠ a := by
          intro e
          exact hlast (by rw [e]; rfl)
        simp [pairFree, beq_eq_false_iff_ne.mpr hxa, h2]
    | cons z l₁ =>
      simp only [List.cons_append, pairFree, Bool.and_eq_true] at h1 ⊢
      refine ⟨h1.1, ?_⟩
      have hlast' : (z :: l₁).getLast? ≠ some a := by
        rwa [List.getLast?_cons_cons] at hlast
      have := ih h1.2 h2 hlast'
      simpa using this

theorem mem_append_iff_char {c : Char} {l₁ l₂ : List Char} :
    c ∈ l₁ ++ l₂ ↔ c ∈ l₁ ∨ c ∈ l₂ := List.mem_append

theorem strJoin_data : ∀ L : List String, (strJoin L).data = (L.map String.data).flatten := by
  intro L
  induction L with
  | nil => rfl
  | cons s rest ih => simp [strJoin, String.data_append, ih]

theorem occurs_strJoin {pat : List Char} {s : String} : ∀ {L : List String}, s ∈ L →
    occursB pat s.data = true → occursB pat (strJoin L).data = true := by
  intro L
  induction L with
  | nil => intro h; cases h
  | cons x rest ih =>
    intro hs h
    rcases List.mem_cons.mp hs with rfl | hs
    · rw [strJoin, String.data_append]
      exact occurs_append_right _ h
    · rw [strJoin, String.data_append]
      exact occurs_append_left _ (ih hs h)

theorem not_mem_strJoin {c : Char} : ∀ {L : List String}, (∀ s ∈ L, c ∉ s.data) →
    c ∉ (strJoin L).data := by
  intro L
  induction L with
  | nil => intro _ h; cases h
  | cons x rest ih =>
    intro hall h
    rw [strJoin, String.data_append] at h
    rcases List.mem_append.mp h with h | h
    · exact hall x (List.mem_cons_self x rest) h
    · exact ih (fun s hs => hall s (List.mem_cons_of_mem x hs)) h

theorem pairFree_strJoin {a b : Char} : ∀ {L : List String},
    (∀ s ∈ L, pairFree a b s.data = true ∧ s.data.getLast? ≠ some a) →
    pairFree a b (strJoin L).data = true := by
  intro L
  induction L with
  | nil => intro; rfl
  | cons x rest ih =>
    intro hall
    rw [strJoin, String.data_append]
    refine pairFree_append (hall x (List.mem_cons_self x rest)).1
      (ih fun s hs => hall s (List.mem_cons_of_mem x hs))
      (hall x (List.mem_cons_self x rest)).2

theorem getLast?_strJoin_ne {a : Char} : ∀ {L : List String},
    (∀ s ∈ L, s.data.getLast? ≠ some a) → (strJoin L).data.getLast? ≠ some a := by
  intro L
  induction L with
  | nil => intro _ h; cases h
  | cons x rest ih =>
    intro hall
    rw [strJoin, String.data_append, List.getLast?_append]
    intro h
    rcases Option.or_eq_some.mp h with h | ⟨h1, h2⟩
    · exact ih (fun s hs => hall s (List.mem_cons_of_mem x hs)) h
    · exact hall x (List.mem_cons_self x rest) h2

/-! ### Character-set facts about the rendered value strings -/

theorem digitChar_isDigit {n : ℕ} (h : n < 10) : (digitChar n).isDigit = true := by
  interval_cases n <;> decide

theorem natDigsF_chars : ∀ (fuel n : ℕ) {c : Char}, c ∈ natDigsF fuel n →
    c.isDigit = true := by
  intro fuel
  induction fuel with
  | zero => intro n c h; cases h
  | succ fuel ih =>
    intro n c h
    rw [natDigsF] at h
    by_cases hn : n < 10
    · rw [if_pos hn] at h
      rcases List.mem_singleton.mp h with rfl
      exact digitChar_isDigit hn
    · rw [if_neg hn] at h
      rcases List.mem_append.mp h with h | h
      · exact ih _ h
      · rcases List.mem_singleton.mp h with rfl
        exact digitChar_isDigit (Nat.mod_lt _ (by norm_num))

theorem natStr_chars {n : ℕ} {c : Char} (h : c ∈ (natStr n).data) : c.isDigit = true :=
  natDigsF_chars _ _ h

theorem intStr_chars {z : ℤ} {c : Char} (h : c ∈ (intStr z).data) :
    c.isDigit = true ∨ c = '-' := by
  rw [intStr, String.data_append] at h
  rcases List.mem_append.mp h with h | h
  · by_cases hz : z < 0
    · rw [if_pos hz] at h
      right
      rcases List.mem_singleton.mp h with rfl
      rfl
    · rw [if_neg hz] at h
      cases h
  · exact Or.inl (natStr_chars h)

theorem pad2_chars {n : ℕ} {c : Char} (h : c ∈ (pad2 n).data) : c.isDigit = true := by
  rw [pad2] at h
  by_cases hn : n < 10
  · rw [if_pos hn, String.data_append] at h
    rcases List.mem_append.mp h with h | h
    · rcases List.mem_singleton.mp h with rfl
      rfl
    · exact natStr_chars h
  · rw [if_neg hn] at h
    exact natStr_chars h

theorem pad4_chars {n : ℕ} {c : Char} (h : c ∈ (pad4 n).data) : c.isDigit = true := by
  have aux : ∀ p : String, (∀ d ∈ p.data, d.isDigit = true) →
      c ∈ (p ++ natStr n).data → c.isDigit = true := by
    intro p hp hmem
    rw [String.data_append] at hmem
    rcases List.mem_append.mp hmem with h' | h'
    · exact hp _ h'
    · exact natStr_chars h'
  rw [pad4] at h
  split at h
  · exact aux "000" (by decide) h
  · split at h
    · exact aux "00" (by decide) h
    · split at h
      · exact aux "0" (by decide) h
      · exact natStr_chars h

theorem fracDigs_chars : ∀ (fuel : ℕ) (r : ℚ), 0 ≤ r → r < 1 → ∀ {c : Char},
    c ∈ fracDigs fuel r → c.isDigit = true := by
  intro fuel
  induction fuel with
  | zero => intro r _ _ c h; cases h
  | succ fuel ih =>
    intro r h0 h1 c h
    rw [fracDigs] at h
    by_cases hr : r = 0
    · rw [if_pos hr] at h
      cases h
    · rw [if_neg hr] at h
      rcases List.mem_cons.mp h with rfl | h
      · apply digitChar_isDigit
        have h10 : r * 10 < 10 := by linarith
        have hfl : ⌊r * 10⌋ < 10 := by
          have := Int.floor_lt.mpr (show (r * 10 : ℚ) < ((10 : ℤ) : ℚ) by exact_mod_cast h10)
          exact this
        have h0' : (0 : ℤ) ≤ ⌊r * 10⌋ := Int.floor_nonneg.mpr (by positivity)
        omega
      · exact ih _ (Int.fract_nonneg _) (Int.fract_lt_one _) h

theorem pyRepr_chars {q : ℚ} {c : Char} (h : c ∈ (pyRepr q).data) :
    c.isDigit = true ∨ c = '-' ∨ c = '.' := by
  rw [pyRepr, String.data_append, String.data_append, String.data_append] at h
  rcases List.mem_append.mp h with h | h
  · rcases List.mem_append.mp h with h | h
    · rcases List.mem_append.mp h with h | h
      · by_cases hq : q < 0
        · rw [if_pos hq] at h
          rcases List.mem_singleton.mp h with rfl
          exact Or.inr (Or.inl rfl)
        · rw [if_neg hq] at h
          cases h
      · exact Or.inl (natStr_chars h)
    · rcases List.mem_singleton.mp h with rfl
      exact Or.inr (Or.inr rfl)
  · by_cases hf : Int.fract |q| = 0
    · rw [if_pos hf] at h
      rcases List.mem_singleton.mp h with rfl
      exact Or.inl rfl
    · rw [if_neg hf] at h
      exact Or.inl (fracDigs_chars _ _ (Int.fract_nonneg _) (Int.fract_lt_one _) h)

theorem fmtTime_chars {t : ℤ} {c : Char} (h : c ∈ (fmtTime t).data) :
    c.isDigit = true ∨ c = '-' ∨ c = ':' ∨ c = 'T' ∨ c = 'Z' := by
  rw [fmtTime] at h
  simp only [String.data_append, List.mem_append] at h
  rcases h with (((((((((((h | h) | h) | h) | h) | h) | h) | h) | h) | h) | h) | h) <;>
    first
    | (exact Or.inl (pad4_chars h))
    | (exact Or.inl (pad2_chars h))
    | (rcases List.mem_singleton.mp h with rfl; decide)

theorem intStr_not_mem {z : ℤ} {c : Char} (hd : c.isDigit = false) (hm : c ≠ '-') :
    c ∉ (intStr z).data := by
  intro h
  rcases intStr_chars h with h | h <;> simp_all

theorem pyRepr_not_mem {q : ℚ} {c : Char} (hd : c.isDigit = false) (hm : c ≠ '-')
    (hp : c ≠ '.') : c ∉ (pyRepr q).data := by
  intro h
  rcases pyRepr_chars h with h | h | h <;> simp_all

theorem fmtTime_not_mem {t : ℤ} {c : Char} (hd : c.isDigit = false) (h1 : c ≠ '-')
    (h2 : c ≠ ':') (h3 : c ≠ 'T') (h4 : c ≠ 'Z') : c ∉ (fmtTime t).data := by
  intro h
  rcases fmtTime_chars h with h | h | h | h | h <;> simp_all

theorem renderPos_not_mem {c : Char}
    (l1 : c ∉ "            <Position>\n              <LatitudeDegrees>".data)
    (l2 : c ∉ "</LatitudeDegrees>\n              <LongitudeDegrees>".data)
    (l3 : c ∉ "</LongitudeDegrees>\n            </Position>\n".data)
    (hd : c.isDigit = false) (hm : c ≠ '-') (hp : c ≠ '.') :
    ∀ o, c ∉ (renderPos o).data := by
  intro o
  cases o with
  | none => intro h; cases h
  | some p =>
    obtain ⟨lat, lng⟩ := p
    apply not_mem_strJoin
    intro s hs
    simp only [List.mem_cons, List.not_mem_nil, or_false] at hs
    rcases hs with rfl | rfl | rfl | rfl | rfl
    · exact l1
    · exact pyRepr_not_mem hd hm hp
    · exact l2
    · exact pyRepr_not_mem hd hm hp
    · exact l3

theorem renderAlt_not_mem {c : Char}
    (l1 : c ∉ "            <AltitudeMeters>".data)
    (l2 : c ∉ "</AltitudeMeters>\n".data)
    (hd : c.isDigit = false) (hm : c ≠ '-') (hp : c ≠ '.') :
    ∀ o, c ∉ (renderAlt o).data := by
  intro o
  cases o with
  | none => intro h; cases h
  | some v =>
    apply not_mem_strJoin
    intro s hs
    simp only [List.mem_cons, List.not_mem_nil, or_false] at hs
    rcases hs with rfl | rfl | rfl
    · exact l1
    · exact pyRepr_not_mem hd hm hp
    · exact l2

theorem renderTpHr_not_mem {c : Char}
    (l1 : c ∉ "            <HeartRateBpm><Value>".data)
    (l2 : c ∉ "</Value></HeartRateBpm>\n".data)
    (hd : c.isDigit = false) (hm : c ≠ '-') :
    ∀ o, c ∉ (renderTpHr o).data := by
  intro o
  cases o with
  | none => intro h; cases h
  | some v =>
    apply not_mem_strJoin
    intro s hs
    simp only [List.mem_cons, List.not_mem_nil, or_false] at hs
    rcases hs with rfl | rfl | rfl
    · exact l1
    · exact intStr_not_mem hd hm
    · exact l2

theorem renderCad_not_mem {c : Char}
    (l1 : c ∉ "            <Cadence>".data)
    (l2 : c ∉ "</Cadence>\n".data)
    (hd : c.isDigit = false) (hm : c ≠ '-') :
    ∀ o, c ∉ (renderCad o).data := by
  intro o
  cases o with
  | none => intro h; cases h
  | some v =>
    apply not_mem_strJoin
    intro s hs
    simp only [List.mem_cons, List.not_mem_nil, or_false] at hs
    rcases hs with rfl | rfl | rfl
    · exact l1
    · exact intStr_not_mem hd hm
    · exact l2

theorem wattsLine_not_mem {c : Char}
    (l1 : c ∉ "                <ns3:Watts>".data)
    (l2 : c ∉ "</ns3:Watts>\n".data)
    (hd : c.isDigit = false) (hm : c ≠ '-') :
    ∀ o, c ∉ (wattsLine o).data := by
  intro o
  cases o with
  | none => intro h; cases h
  | some v =>
    apply not_mem_strJoin
    intro s hs
    simp only [List.mem_cons, List.not_mem_nil, or_false] at hs
    rcases hs with rfl | rfl | rfl
    · exact l1
    · exact intStr_not_mem hd hm
    · exact l2

theorem tempLine_not_mem {c : Char}
    (l1 : c ∉ "                <ns3:AirTemperature>".data)
    (l2 : c ∉ "</ns3:AirTemperature>\n".data)
    (hd : c.isDigit = false) (hm : c ≠ '-') :
    ∀ o, c ∉ (tempLine o).data := by
  intro o
  cases o with
  | none => intro h; cases h
  | some v =>
    apply not_mem_strJoin
    intro s hs
    simp only [List.mem_cons, List.not_mem_nil, or_false] at hs
    rcases hs with rfl | rfl | rfl
    · exact l1
    · exact intStr_not_mem hd hm
    · exact l2

theorem renderTpExt_not_mem {c : Char}
    (l1 : c ∉ "            <Extensions>\n              <ns3:TPX>\n".data)
    (l2 : c ∉ "              </ns3:TPX>\n            </Extensions>\n".data)
    (lw1 : c ∉ "                <ns3:Watts>".data)
    (lw2 : c ∉ "</ns3:Watts>\n".data)
    (lt1 : c ∉ "                <ns3:AirTemperature>".data)
    (lt2 : c ∉ "</ns3:AirTemperature>\n".data)
    (hd : c.isDigit = false) (hm : c ≠ '-') :
    ∀ w tm, c ∉ (renderTpExt w tm).data := by
  have hw := wattsLine_not_mem lw1 lw2 hd hm
  have ht := tempLine_not_mem lt1 lt2 hd hm
  intro w tm
  match w, tm with
  | none, none => intro h; cases h
  | some v, tm =>
    apply not_mem_strJoin
    intro s hs
    simp only [List.mem_cons, List.not_mem_nil, or_false] at hs
    rcases hs with rfl | rfl | rfl | rfl
    · exact l1
    · exact hw _
    · exact ht _
    · exact l2
  | none, some v =>
    apply not_mem_strJoin
    intro s hs
    simp only [List.mem_cons, List.not_mem_nil, or_false] at hs
    rcases hs with rfl | rfl | rfl | rfl
    · exact l1
    · exact hw _
    · exact ht _
    · exact l2

theorem hrBlock_not_mem {c : Char}
    (l1 : c ∉ "\n        <AverageHeartRateBpm><Value>".data)
    (l2 : c ∉ "</Value></AverageHeartRateBpm>\n        <MaximumHeartRateBpm><Value>".data)
    (l3 : c ∉ "</Value></MaximumHeartRateBpm>".data)
    (hd : c.isDigit = false) (hm : c ≠ '-') :
    ∀ ah mh, c ∉ (hrBlock ah mh).data := by
  intro ah mh
  rw [hrBlock]
  split
  · apply not_mem_strJoin
    intro s hs
    simp only [List.mem_cons, List.not_mem_nil, or_false] at hs
    rcases hs with rfl | rfl | rfl | rfl | rfl
    · exact l1
    · exact intStr_not_mem hd hm
    · exact l2
    · exact intStr_not_mem hd hm
    · exact l3
  · intro h; cases h

theorem lapWatts_not_mem {c : Char}
    (l1 : c ∉ "\n            <ns3:AvgWatts>".data)
    (l2 : c ∉ "</ns3:AvgWatts>\n            <ns3:MaxWatts>".data)
    (l3 : c ∉ "</ns3:MaxWatts>".data)
    (hd : c.isDigit = false) (hm : c ≠ '-') :
    ∀ aw mw, c ∉ (lapWatts aw mw).data := by
  intro aw mw
  rw [lapWatts]
  split
  · apply not_mem_strJoin
    intro s hs
    simp only [List.mem_cons, List.not_mem_nil, or_false] at hs
    rcases hs with rfl | rfl | rfl | rfl | rfl
    · exact l1
    · exact intStr_not_mem hd hm
    · exact l2
    · exact intStr_not_mem hd hm
    · exact l3
  · intro h; cases h

theorem lapCadence_not_mem {c : Char}
    (l1 : c ∉ "\n            <ns3:AvgRunCadence>".data)
    (l2 : c ∉ "</ns3:AvgRunCadence>".data)
    (hd : c.isDigit = false) (hm : c ≠ '-') :
    ∀ ac, c ∉ (lapCadence ac).data := by
  intro ac
  rw [lapCadence]
  split
  · apply not_mem_strJoin
    intro s hs
    simp only [List.mem_cons, List.not_mem_nil, or_false] at hs
    rcases hs with rfl | rfl | rfl
    · exact l1
    · exact intStr_not_mem hd hm
    · exact l2
  · intro h; cases h

theorem extBlock_not_mem {c : Char}
    (l1 : c ∉ "\n        <Extensions>\n          <ns3:LX>".data)
    (l2 : c ∉ "\n          </ns3:LX>\n        </Extensions>".data)
    (lw1 : c ∉ "\n            <ns3:AvgWatts>".data)
    (lw2 : c ∉ "</ns3:AvgWatts>\n            <ns3:MaxWatts>".data)
    (lw3 : c ∉ "</ns3:MaxWatts>".data)
    (lc1 : c ∉ "\n            <ns3:AvgRunCadence>".data)
    (lc2 : c ∉ "</ns3:AvgRunCadence>".data)
    (hd : c.isDigit = false) (hm : c ≠ '-') :
    ∀ aw mw ac, c ∉ (extBlock aw mw ac).data := by
  intro aw mw ac
  rw [extBlock]
  split
  · apply not_mem_strJoin
    intro s hs
    simp only [List.mem_cons, List.not_mem_nil, or_false] at hs
    rcases hs with rfl | rfl | rfl | rfl
    · exact l1
    · exact lapWatts_not_mem lw1 lw2 lw3 hd hm _ _
    · exact lapCadence_not_mem lc1 lc2 hd hm _
    · exact l2
  · intro h; cases h

theorem pf_of_chars {a b : Char} {l : List Char} (hb : b ∉ l) (ha : a ∉ l) :
    pairFree a b l = true ∧ l.getLast? ≠ some a :=
  ⟨pairFree_of_not_mem_snd a hb, getLast?_ne_of_not_mem ha⟩

theorem pf_strJoin {a b : Char} {L : List String}
    (hall : ∀ s ∈ L, pairFree a b s.data = true ∧ s.data.getLast? ≠ some a) :
    pairFree a b (strJoin L).data = true ∧ (strJoin L).data.getLast? ≠ some a :=
  ⟨pairFree_strJoin hall, getLast?_strJoin_ne (fun s hs => (hall s hs).2)⟩

theorem fmtTime_pf {a b : Char} (t : ℤ) (hb : b ∉ (fmtTime t).data)
    (ha : a ≠ 'Z') : pairFree a b (fmtTime t).data = true ∧
      (fmtTime t).data.getLast? ≠ some a := by
  refine ⟨pairFree_of_not_mem_snd a hb, ?_⟩
  have hz : ∀ s : String, ((s ++ "Z").data).getLast? = some 'Z' := by
    intro s
    rw [String.data_append, List.getLast?_append]
    rfl
  rw [fmtTime]
  rw [hz]
  simp [ha.symm]

/-- `pairFree '<' 'P'` for a track point whose position entry is absent:
no other piece of a track point can produce the pair `<P`. -/
theorem trackpoint_pfP {st : ℤ} {s : Streams} {i : ℕ} {t : ℤ}
    (hpos : (s.latlng.getD [])[i]? = none) :
    pairFree '<' 'P' (trackpoint st s i t).data = true := by
  have hval : ∀ z : ℤ, pairFree '<' 'P' (intStr z).data = true ∧
      (intStr z).data.getLast? ≠ some '<' :=
    fun z => pf_of_chars (intStr_not_mem (by decide) (by decide))
      (intStr_not_mem (by decide) (by decide))
  have hrep : ∀ q : ℚ, pairFree '<' 'P' (pyRepr q).data = true ∧
      (pyRepr q).data.getLast? ≠ some '<' :=
    fun q => pf_of_chars (pyRepr_not_mem (by decide) (by decide) (by decide))
      (pyRepr_not_mem (by decide) (by decide) (by decide))
  rw [trackpoint]
  refine (pf_strJoin ?_).1
  intro x hx
  simp only [trackpointPieces, List.mem_cons, List.not_mem_nil, or_false] at hx
  rcases hx with rfl | rfl | rfl | rfl | rfl | rfl | rfl | rfl | rfl
  · exact ⟨rfl, by decide⟩
  · exact fmtTime_pf (st + t) (fmtTime_not_mem (by decide) (by decide) (by decide)
      (by decide) (by decide)) (by decide)
  · exact ⟨rfl, by decide⟩
  · rw [hpos]
    exact ⟨rfl, by decide⟩
  · cases halt : (s.altitude.getD [])[i]? with
    | none => exact ⟨rfl, by decide⟩
    | some v =>
      refine pf_strJoin ?_
      intro x hx
      simp only [List.mem_cons, List.not_mem_nil, or_false] at hx
      rcases hx with rfl | rfl | rfl
      · exact ⟨rfl, by decide⟩
      · exact hrep v
      · exact ⟨rfl, by decide⟩
  · cases hhr : (s.heartrate.getD [])[i]? with
    | none => exact ⟨rfl, by decide⟩
    | some v =>
      refine pf_strJoin ?_
      intro x hx
      simp only [List.mem_cons, List.not_mem_nil, or_false] at hx
      rcases hx with rfl | rfl | rfl
      · exact ⟨rfl, by decide⟩
      · exact hval _
      · exact ⟨rfl, by decide⟩
  · cases hcad : (s.cadence.getD [])[i]? with
    | none => exact ⟨rfl, by decide⟩
    | some v =>
      refine pf_strJoin ?_
      intro x hx
      simp only [List.mem_cons, List.not_mem_nil, or_false] at hx
      rcases hx with rfl | rfl | rfl
      · exact ⟨rfl, by decide⟩
      · exact hval _
      · exact ⟨rfl, by decide⟩
  · have hWatts : ∀ o, pairFree '<' 'P' (wattsLine o).data = true ∧
        (wattsLine o).data.getLast? ≠ some '<' := by
      intro o
      cases o with
      | none => exact ⟨rfl, by decide⟩
      | some v =>
        refine pf_strJoin ?_
        intro x hx
        simp only [List.mem_cons, List.not_mem_nil, or_false] at hx
        rcases hx with rfl | rfl | rfl
        · exact ⟨rfl, by decide⟩
        · exact hval _
        · exact ⟨rfl, by decide⟩
    have hTemp : ∀ o, pairFree '<' 'P' (tempLine o).data = true ∧
        (tempLine o).data.getLast? ≠ some '<' := by
      intro o
      cases o with
      | none => exact ⟨rfl, by decide⟩
      | some v =>
        refine pf_strJoin ?_
        intro x hx
        simp only [List.mem_cons, List.not_mem_nil, or_false] at hx
        rcases hx with rfl | rfl | rfl
        · exact ⟨rfl, by decide⟩
        · exact hval _
        · exact ⟨rfl, by decide⟩
    cases hw : (s.watts.getD [])[i]? with
    | none =>
      cases htm : (s.temp.getD [])[i]? with
      | none => exact ⟨rfl, by decide⟩
      | some v =>
        refine pf_strJoin ?_
        intro x hx
        simp only [List.mem_cons, List.not_mem_nil, or_false] at hx
        rcases hx with rfl | rfl | rfl | rfl
        · exact ⟨rfl, by decide⟩
        · exact hWatts _
        · exact hTemp _
        · exact ⟨rfl, by decide⟩
    | some v =>
      refine pf_strJoin ?_
      intro x hx
      simp only [List.mem_cons, List.not_mem_nil, or_false] at hx
      rcases hx with rfl | rfl | rfl | rfl
      · exact ⟨rfl, by decide⟩
      · exact hWatts _
      · exact hTemp _
      · exact ⟨rfl, by decide⟩
  · exact ⟨rfl, by decide⟩

theorem pairFree_of_not_mem_fst {a : Char} (b : Char) : ∀ {l : List Char}, a ∉ l →
    pairFree a b l = true := by
  intro l
  induction l with
  | nil => intro; rfl
  | cons x l ih =>
    intro h
    cases l with
    | nil => rfl
    | cons y l =>
      have hx : (x == a) = false := by
        simp only [List.mem_cons, not_or] at h
        exact beq_eq_false_iff_ne.mpr fun e => h.1 e.symm
      have : a ∉ y :: l := fun hm => h (List.mem_cons_of_mem x hm)
      simp only [pairFree, Bool.and_eq_true, Bool.not_eq_true']
      exact ⟨by simp [hx], ih this⟩

theorem pf_of_chars_fst {a b : Char} {l : List Char} (ha : a ∉ l) :
    pairFree a b l = true ∧ l.getLast? ≠ some a :=
  ⟨pairFree_of_not_mem_fst b ha, getLast?_ne_of_not_mem ha⟩

/-- `pairFree ':' 'A'` for a track point whose temperature entry is absent. -/
theorem trackpoint_pfA {st : ℤ} {s : Streams} {i : ℕ} {t : ℤ}
    (htm : (s.temp.getD [])[i]? = none) :
    pairFree ':' 'A' (trackpoint st s i t).data = true := by
  have hval : ∀ z : ℤ, pairFree ':' 'A' (intStr z).data = true ∧
      (intStr z).data.getLast? ≠ some ':' :=
    fun z => pf_of_chars_fst (intStr_not_mem (by decide) (by decide))
  have hrep : ∀ q : ℚ, pairFree ':' 'A' (pyRepr q).data = true ∧
      (pyRepr q).data.getLast? ≠ some ':' :=
    fun q => pf_of_chars_fst (pyRepr_not_mem (by decide) (by decide) (by decide))
  rw [trackpoint]
  refine (pf_strJoin ?_).1
  intro x hx
  simp only [trackpointPieces, List.mem_cons, List.not_mem_nil, or_false] at hx
  rcases hx with rfl | rfl | rfl | rfl | rfl | rfl | rfl | rfl | rfl
  · exact ⟨rfl, by decide⟩
  · exact fmtTime_pf (st + t) (fmtTime_not_mem (by decide) (by decide) (by decide)
      (by decide) (by decide)) (by decide)
  · exact ⟨rfl, by decide⟩
  · cases hll : (s.latlng.getD [])[i]? with
    | none => exact ⟨rfl, by decide⟩
    | some p =>
      obtain ⟨lat, lng⟩ := p
      refine pf_strJoin ?_
      intro x hx
      simp only [List.mem_cons, List.not_mem_nil, or_false] at hx
      rcases hx with rfl | rfl | rfl | rfl | rfl
      · exact ⟨rfl, by decide⟩
      · exact hrep lat
      · exact ⟨rfl, by decide⟩
      · exact hrep lng
      · exact ⟨rfl, by decide⟩
  · cases halt : (s.altitude.getD [])[i]? with
    | none => exact ⟨rfl, by decide⟩
    | some v =>
      refine pf_strJoin ?_
      intro x hx
      simp only [List.mem_cons, List.not_mem_nil, or_false] at hx
      rcases hx with rfl | rfl | rfl
      · exact ⟨rfl, by decide⟩
      · exact hrep v
      · exact ⟨rfl, by decide⟩
  · cases hhr : (s.heartrate.getD [])[i]? with
    | none => exact ⟨rfl, by decide⟩
    | some v =>
      refine pf_strJoin ?_
      intro x hx
      simp only [List.mem_cons, List.not_mem_nil, or_false] at hx
      rcases hx with rfl | rfl | rfl
      · exact ⟨rfl, by decide⟩
      · exact hval _
      · exact ⟨rfl, by decide⟩
  · cases hcad : (s.cadence.getD [])[i]? with
    | none => exact ⟨rfl, by decide⟩
    | some v =>
      refine pf_strJoin ?_
      intro x hx
      simp only [List.mem_cons, List.not_mem_nil, or_false] at hx
      rcases hx with rfl | rfl | rfl
      · exact ⟨rfl, by decide⟩
      · exact hval _
      · exact ⟨rfl, by decide⟩
  · rw [htm]
    cases hw : (s.watts.getD [])[i]? with
    | none => exact ⟨rfl, by decide⟩
    | some v =>
      refine pf_strJoin ?_
      intro x hx
      simp only [List.mem_cons, List.not_mem_nil, or_false] at hx
      rcases hx with rfl | rfl | rfl | rfl
      · exact ⟨rfl, by decide⟩
      · refine pf_strJoin ?_
        intro x hx
        simp only [List.mem_cons, List.not_mem_nil, or_false] at hx
        rcases hx with rfl | rfl | rfl
        · exact ⟨rfl, by decide⟩
        · exact hval _
        · exact ⟨rfl, by decide⟩
      · exact ⟨rfl, by decide⟩
      · exact ⟨rfl, by decide⟩
  · exact ⟨rfl, by decide⟩

/-- A char absent from every piece of a track point whose altitude entry is
absent; instantiated at `'M'`, the unique capital of `AltitudeMeters`. -/
theorem trackpoint_not_mem_M {st : ℤ} {s : Streams} {i : ℕ} {t : ℤ}
    (halt : (s.altitude.getD [])[i]? = none) :
    'M' ∉ (trackpoint st s i t).data := by
  rw [trackpoint]
  apply not_mem_strJoin
  intro x hx
  simp only [trackpointPieces, List.mem_cons, List.not_mem_nil, or_false] at hx
  rcases hx with rfl | rfl | rfl | rfl | rfl | rfl | rfl | rfl | rfl
  · decide
  · exact fmtTime_not_mem (by decide) (by decide) (by decide) (by decide) (by decide)
  · decide
  · exact renderPos_not_mem (by decide) (by decide) (by decide) (by decide) (by decide)
      (by decide) _
  · rw [halt]
    intro h
    cases h
  · exact renderTpHr_not_mem (by decide) (by decide) (by decide) (by decide) _
  · exact renderCad_not_mem (by decide) (by decide) (by decide) (by decide) _
  · exact renderTpExt_not_mem (by decide) (by decide) (by decide) (by decide) (by decide)
      (by decide) (by decide) (by decide) _ _
  · decide

/-- Char `'H'` (unique to `HeartRateBpm`) is absent from a track point whose
heart-rate entry is absent. -/
theorem trackpoint_not_mem_H {st : ℤ} {s : Streams} {i : ℕ} {t : ℤ}
    (hhr : (s.heartrate.getD [])[i]? = none) :
    'H' ∉ (trackpoint st s i t).data := by
  rw [trackpoint]
  apply not_mem_strJoin
  intro x hx
  simp only [trackpointPieces, List.mem_cons, List.not_mem_nil, or_false] at hx
  rcases hx with rfl | rfl | rfl | rfl | rfl | rfl | rfl | rfl | rfl
  · decide
  · exact fmtTime_not_mem (by decide) (by decide) (by decide) (by decide) (by decide)
  · decide
  · exact renderPos_not_mem (by decide) (by decide) (by decide) (by decide) (by decide)
      (by decide) _
  · exact renderAlt_not_mem (by decide) (by decide) (by decide) (by decide) (by decide) _
  · rw [hhr]
    intro h
    cases h
  · exact renderCad_not_mem (by decide) (by decide) (by decide) (by decide) _
  · exact renderTpExt_not_mem (by decide) (by decide) (by decide) (by decide) (by decide)
      (by decide) (by decide) (by decide) _ _
  · decide

/-- Char `'C'` (unique to `Cadence`) is absent from a track point whose
cadence entry is absent. -/
theorem trackpoint_not_mem_C {st : ℤ} {s : Streams} {i : ℕ} {t : ℤ}
    (hcad : (s.cadence.getD [])[i]? = none) :
    'C' ∉ (trackpoint st s i t).data := by
  rw [trackpoint]
  apply not_mem_strJoin
  intro x hx
  simp only [trackpointPieces, List.mem_cons, List.not_mem_nil, or_false] at hx
  rcases hx with rfl | rfl | rfl | rfl | rfl | rfl | rfl | rfl | rfl
  · decide
  · exact fmtTime_not_mem (by decide) (by decide) (by decide) (by decide) (by decide)
  · decide
  · exact renderPos_not_mem (by decide) (by decide) (by decide) (by decide) (by decide)
      (by decide) _
  · exact renderAlt_not_mem (by decide) (by decide) (by decide) (by decide) (by decide) _
  · exact renderTpHr_not_mem (by decide) (by decide) (by decide) (by decide) _
  · rw [hcad]
    intro h
    cases h
  · exact renderTpExt_not_mem (by decide) (by decide) (by decide) (by decide) (by decide)
      (by decide) (by decide) (by decide) _ _
  · decide

/-- Char `'W'` is absent from the extension block when the watts entry is
absent. -/
theorem renderTpExt_not_mem_W {tm : Option ℚ} : 'W' ∉ (renderTpExt none tm).data := by
  cases tm with
  | none => intro h; cases h
  | some v =>
    apply not_mem_strJoin
    intro x hx
    simp only [List.mem_cons, List.not_mem_nil, or_false] at hx
    rcases hx with rfl | rfl | rfl | rfl
    · decide
    · intro h; cases h
    · exact tempLine_not_mem (by decide) (by decide) (by decide) (by decide) _
    · decide

/-- Char `'W'` (unique to `Watts`) is absent from a track point whose watts
entry is absent. -/
theorem trackpoint_not_mem_W {st : ℤ} {s : Streams} {i : ℕ} {t : ℤ}
    (hw : (s.watts.getD [])[i]? = none) :
    'W' ∉ (trackpoint st s i t).data := by
  rw [trackpoint]
  apply not_mem_strJoin
  intro x hx
  simp only [trackpointPieces, List.mem_cons, List.not_mem_nil, or_false] at hx
  rcases hx with rfl | rfl | rfl | rfl | rfl | rfl | rfl | rfl | rfl
  · decide
  · exact fmtTime_not_mem (by decide) (by decide) (by decide) (by decide) (by decide)
  · decide
  · exact renderPos_not_mem (by decide) (by decide) (by decide) (by decide) (by decide)
      (by decide) _
  · exact renderAlt_not_mem (by decide) (by decide) (by decide) (by decide) (by decide) _
  · exact renderTpHr_not_mem (by decide) (by decide) (by decide) (by decide) _
  · exact renderCad_not_mem (by decide) (by decide) (by decide) (by decide) _
  · rw [hw]
    exact renderTpExt_not_mem_W
  · decide

/-- Char `'B'` (unique to the `...Bpm` heart-rate tags) is absent from the
lap statistics when the average heart rate is zero. -/
theorem lapStats_not_mem_B {a : Activity} (ha : a.average_heartrate.getD 0 = 0) :
    'B' ∉ (lapStats a).data := by
  rw [lapStats]
  apply not_mem_strJoin
  intro x hx
  simp only [List.mem_cons, List.not_mem_nil, or_false] at hx
  rcases hx with rfl | rfl | rfl
  · rw [hrBlock, if_neg (by simp [ha])]
    intro h
    cases h
  · decide
  · exact extBlock_not_mem (by decide) (by decide) (by decide) (by decide) (by decide)
      (by decide) (by decide) (by decide) (by decide) _ _ _

/-- Char `'W'` is absent from the lap `AvgWatts`/`MaxWatts` region when the
average watts is zero. -/
theorem extBlock_not_mem_W {mw ac : ℚ} : 'W' ∉ (extBlock 0 mw ac).data := by
  rw [extBlock]
  split
  · apply not_mem_strJoin
    intro x hx
    simp only [List.mem_cons, List.not_mem_nil, or_false] at hx
    rcases hx with rfl | rfl | rfl | rfl
    · decide
    · rw [lapWatts, if_neg (by simp)]
      intro h
      cases h
    · exact lapCadence_not_mem (by decide) (by decide) (by decide) (by decide) _
    · decide
  · intro h
    cases h

/-- Char `'W'` (unique to the watts tags) is absent from the lap statistics
when the average watts is zero. -/
theorem lapStats_not_mem_W {a : Activity} (hw : a.average_watts.getD 0 = 0) :
    'W' ∉ (lapStats a).data := by
  rw [lapStats]
  apply not_mem_strJoin
  intro x hx
  simp only [List.mem_cons, List.not_mem_nil, or_false] at hx
  rcases hx with rfl | rfl | rfl
  · exact hrBlock_not_mem (by decide) (by decide) (by decide) (by decide) (by decide) _ _
  · decide
  · rw [hw]
    exact extBlock_not_mem_W

/-- `pairFree 'R' 'u'` for the lap statistics when the average cadence is
zero: the pair `Ru` appears only in `AvgRunCadence`. -/
theorem lapStats_pfRu {a : Activity} (hc : a.average_cadence.getD 0 = 0) :
    pairFree 'R' 'u' (lapStats a).data = true := by
  have hval : ∀ z : ℤ, pairFree 'R' 'u' (intStr z).data = true ∧
      (intStr z).data.getLast? ≠ some 'R' :=
    fun z => pf_of_chars_fst (intStr_not_mem (by decide) (by decide))
  rw [lapStats]
  refine (pf_strJoin ?_).1
  intro x hx
  simp only [List.mem_cons, List.not_mem_nil, or_false] at hx
  rcases hx with rfl | rfl | rfl
  · rw [hrBlock]
    split
    · refine pf_strJoin ?_
      intro x hx
      simp only [List.mem_cons, List.not_mem_nil, or_false] at hx
      rcases hx with rfl | rfl | rfl | rfl | rfl
      · exact ⟨rfl, by decide⟩
      · exact hval _
      · exact ⟨rfl, by decide⟩
      · exact hval _
      · exact ⟨rfl, by decide⟩
    · exact ⟨rfl, by decide⟩
  · exact ⟨rfl, by decide⟩
  · rw [hc, extBlock]
    split
    · refine pf_strJoin ?_
      intro x hx
      simp only [List.mem_cons, List.not_mem_nil, or_false] at hx
      rcases hx with rfl | rfl | rfl | rfl
      · exact ⟨rfl, by decide⟩
      · rw [lapWatts]
        split
        · refine pf_strJoin ?_
          intro x hx
          simp only [List.mem_cons, List.not_mem_nil, or_false] at hx
          rcases hx with rfl | rfl | rfl | rfl | rfl
          · exact ⟨rfl, by decide⟩
          · exact hval _
          · exact ⟨rfl, by decide⟩
          · exact hval _
          · exact ⟨rfl, by decide⟩
        · exact ⟨rfl, by decide⟩
      · rw [lapCadence, if_neg (by simp)]
        exact ⟨rfl, by decide⟩
      · exact ⟨rfl, by decide⟩
    · exact ⟨rfl, by decide⟩

theorem data_empty : ("" : String).data = [] := rfl

theorem occurs_self_str (p : String) : Occurs p p := occurs_self p.data

theorem not_occurs_char {pat s : String} (c : Char) (hc : c ∈ pat.data)
    (hs : c ∉ s.data) : ¬ Occurs pat s := by
  intro h
  rw [Occurs, not_occurs_of_char c hc hs] at h
  cases h

theorem not_occurs_pair {pat s : String} {a b : Char}
    (hab : occursB [a, b] pat.data = true) (hfree : pairFree a b s.data = true) :
    ¬ Occurs pat s := by
  intro h
  rw [Occurs, not_occurs_of_pairFree hab hfree] at h
  cases h

/-- Claim C2: for every input on which the converter produces a document
and every index `i` of the time-offset sequence, the `i`-th emitted track
point contains each optional field (position, altitude, heart rate,
cadence, power, air temperature) if and only if the corresponding source
sequence has an entry at index `i`, and when present the field carries
exactly the source entry's value (truncated to int where the source does),
never a defaulted value.  Presence of an entry at `i` is
`(stream)[i]? = some v`; absence is `= none` (this also covers a stream
key that is missing altogether, whose extracted data list is empty). -/
theorem c2_trackpoint_optional_fields (st : ℤ) (s : Streams) (i : ℕ) (t : ℤ) :
    (∀ lat lng : ℚ, (s.latlng.getD [])[i]? = some (lat, lng) →
      Occurs ("            <Position>\n              <LatitudeDegrees>" ++ pyRepr lat ++
        "</LatitudeDegrees>\n              <LongitudeDegrees>" ++ pyRepr lng ++
        "</LongitudeDegrees>\n            </Position>\n") (trackpoint st s i t)) ∧
    ((s.latlng.getD [])[i]? = none → ¬ Occurs "<Position>" (trackpoint st s i t)) ∧
    (∀ v : ℚ, (s.altitude.getD [])[i]? = some v →
      Occurs ("            <AltitudeMeters>" ++ pyRepr v ++ "</AltitudeMeters>\n")
        (trackpoint st s i t)) ∧
    ((s.altitude.getD [])[i]? = none → ¬ Occurs "<AltitudeMeters>" (trackpoint st s i t)) ∧
    (∀ v : ℚ, (s.heartrate.getD [])[i]? = some v →
      Occurs ("            <HeartRateBpm><Value>" ++ intStr (pyInt v) ++
        "</Value></HeartRateBpm>\n") (trackpoint st s i t)) ∧
    ((s.heartrate.getD [])[i]? = none → ¬ Occurs "<HeartRateBpm>" (trackpoint st s i t)) ∧
    (∀ v : ℚ, (s.cadence.getD [])[i]? = some v →
      Occurs ("            <Cadence>" ++ intStr (pyInt v) ++ "</Cadence>\n")
        (trackpoint st s i t)) ∧
    ((s.cadence.getD [])[i]? = none → ¬ Occurs "<Cadence>" (trackpoint st s i t)) ∧
    (∀ v : ℚ, (s.watts.getD [])[i]? = some v →
      Occurs ("                <ns3:Watts>" ++ intStr (pyInt v) ++ "</ns3:Watts>\n")
        (trackpoint st s i t)) ∧
    ((s.watts.getD [])[i]? = none → ¬ Occurs "<ns3:Watts>" (trackpoint st s i t)) ∧
    (∀ v : ℚ, (s.temp.getD [])[i]? = some v →
      Occurs ("                <ns3:AirTemperature>" ++ intStr (pyInt v) ++
        "</ns3:AirTemperature>\n") (trackpoint st s i t)) ∧
    ((s.temp.getD [])[i]? = none →
      ¬ Occurs "<ns3:AirTemperature>" (trackpoint st s i t)) := by
  refine ⟨?_, ?_, ?_, ?_, ?_, ?_, ?_, ?_, ?_, ?_, ?_, ?_⟩
  · intro lat lng h
    rw [trackpoint]
    refine occurs_strJoin (show renderPos (s.latlng.getD [])[i]? ∈ trackpointPieces st s i t
      by simp [trackpointPieces]) ?_
    rw [h]
    have hdata : ("            <Position>\n              <LatitudeDegrees>" ++ pyRepr lat ++
        "</LatitudeDegrees>\n              <LongitudeDegrees>" ++ pyRepr lng ++
        "</LongitudeDegrees>\n            </Position>\n").data
        = (renderPos (some (lat, lng))).data := by
      simp [renderPos, strJoin, String.data_append, data_empty]
    rw [← hdata]
    exact occurs_self _
  · intro h
    exact not_occurs_pair (by rfl) (trackpoint_pfP h)
  · intro v h
    rw [trackpoint]
    refine occurs_strJoin (show renderAlt (s.altitude.getD [])[i]? ∈ trackpointPieces st s i t
      by simp [trackpointPieces]) ?_
    rw [h]
    have hdata : ("            <AltitudeMeters>" ++ pyRepr v ++ "</AltitudeMeters>\n").data
        = (renderAlt (some v)).data := by
      simp [renderAlt, strJoin, String.data_append, data_empty]
    rw [← hdata]
    exact occurs_self _
  · intro h
    exact not_occurs_char 'M' (by decide) (trackpoint_not_mem_M h)
  · intro v h
    rw [trackpoint]
    refine occurs_strJoin
      (show renderTpHr (s.heartrate.getD [])[i]? ∈ trackpointPieces st s i t
        by simp [trackpointPieces]) ?_
    rw [h]
    have hdata : ("            <HeartRateBpm><Value>" ++ intStr (pyInt v) ++
        "</Value></HeartRateBpm>\n").data = (renderTpHr (some v)).data := by
      simp [renderTpHr, strJoin, String.data_append, data_empty]
    rw [← hdata]
    exact occurs_self _
  · intro h
    exact not_occurs_char 'H' (by decide) (trackpoint_not_mem_H h)
  · intro v h
    rw [trackpoint]
    refine occurs_strJoin
      (show renderCad (s.cadence.getD [])[i]? ∈ trackpointPieces st s i t
        by simp [trackpointPieces]) ?_
    rw [h]
    have hdata : ("            <Cadence>" ++ intStr (pyInt v) ++ "</Cadence>\n").data
        = (renderCad (some v)).data := by
      simp [renderCad, strJoin, String.data_append, data_empty]
    rw [← hdata]
    exact occurs_self _
  · intro h
    exact not_occurs_char 'C' (by decide) (trackpoint_not_mem_C h)
  · intro v h
    rw [trackpoint]
    refine occurs_strJoin
      (show renderTpExt (s.watts.getD [])[i]? (s.temp.getD [])[i]? ∈ trackpointPieces st s i t
        by simp [trackpointPieces]) ?_
    rw [h]
    have hw : occursB ("                <ns3:Watts>" ++ intStr (pyInt v) ++
        "</ns3:Watts>\n").data (wattsLine (some v)).data = true := by
      have hdata : ("                <ns3:Watts>" ++ intStr (pyInt v) ++
          "</ns3:Watts>\n").data = (wattsLine (some v)).data := by
        simp [wattsLine, strJoin, String.data_append, data_empty]
      rw [← hdata]
      exact occurs_self _
    cases htm : (s.temp.getD [])[i]? with
    | none =>
      exact occurs_strJoin (show wattsLine (some v) ∈
        ["            <Extensions>\n              <ns3:TPX>\n", wattsLine (some v),
         tempLine none, "              </ns3:TPX>\n            </Extensions>\n"]
        by simp) hw
    | some w =>
      exact occurs_strJoin (show wattsLine (some v) ∈
        ["            <Extensions>\n              <ns3:TPX>\n", wattsLine (some v),
         tempLine (some w), "              </ns3:TPX>\n            </Extensions>\n"]
        by simp) hw
  · intro h
    exact not_occurs_char 'W' (by decide) (trackpoint_not_mem_W h)
  · intro v h
    rw [trackpoint]
    refine occurs_strJoin
      (show renderTpExt (s.watts.getD [])[i]? (s.temp.getD [])[i]? ∈ trackpointPieces st s i t
        by simp [trackpointPieces]) ?_
    rw [h]
    have ht : occursB ("                <ns3:AirTemperature>" ++ intStr (pyInt v) ++
        "</ns3:AirTemperature>\n").data (tempLine (some v)).data = true := by
      have hdata : ("                <ns3:AirTemperature>" ++ intStr (pyInt v) ++
          "</ns3:AirTemperature>\n").data = (tempLine (some v)).data := by
        simp [tempLine, strJoin, String.data_append, data_empty]
      rw [← hdata]
      exact occurs_self _
    cases hw : (s.watts.getD [])[i]? with
    | none =>
      exact occurs_strJoin (show tempLine (some v) ∈
        ["            <Extensions>\n              <ns3:TPX>\n", wattsLine none,
         tempLine (some v), "              </ns3:TPX>\n            </Extensions>\n"]
        by simp) ht
    | some w =>
      exact occurs_strJoin (show tempLine (some v) ∈
        ["            <Extensions>\n              <ns3:TPX>\n", wattsLine (some w),
         tempLine (some v), "              </ns3:TPX>\n            </Extensions>\n"]
        by simp) ht
  · intro h
    exact not_occurs_pair (by rfl) (trackpoint_pfA h)

/-- Claim C4: the lap-level average/maximum heart-rate elements are
present iff the activity's average heart rate is present and non-zero;
the lap-level power elements (`AvgWatts`/`MaxWatts`) are present iff the
average watts is present and non-zero; the average-cadence element is
present iff the average cadence is present and non-zero.  Concretely, a
Ride with average heart rate 140 and average power 0 yields a document
containing `<AverageHeartRateBpm><Value>140</Value></AverageHeartRateBpm>`,
no power elements, and the sport attribute `Biking`. -/
theorem c4_lap_conditional_blocks :
    (∀ a : Activity,
      (Occurs "<AverageHeartRateBpm>" (lapStats a) ↔ a.average_heartrate.getD 0 ≠ 0) ∧
      (Occurs "<MaximumHeartRateBpm>" (lapStats a) ↔ a.average_heartrate.getD 0 ≠ 0) ∧
      (Occurs "<ns3:AvgWatts>" (lapStats a) ↔ a.average_watts.getD 0 ≠ 0) ∧
      (Occurs "<ns3:MaxWatts>" (lapStats a) ↔ a.average_watts.getD 0 ≠ 0) ∧
      (Occurs "<ns3:AvgRunCadence>" (lapStats a) ↔ a.average_cadence.getD 0 ≠ 0)) ∧
    convert_strava_to_tcx actRide (some strFull) =
      Except.ok (some (tcxDoc actRide strFull 1717236000)) ∧
    Occurs "<AverageHeartRateBpm><Value>140</Value></AverageHeartRateBpm>"
      (tcxDoc actRide strFull 1717236000) ∧
    (¬ Occurs "<ns3:AvgWatts>" (tcxDoc actRide strFull 1717236000)) ∧
    (¬ Occurs "<ns3:MaxWatts>" (tcxDoc actRide strFull 1717236000)) ∧
    Occurs "<Activity Sport=\"Biking\">" (tcxDoc actRide strFull 1717236000) := by
  refine ⟨?_, by decide!, by decide!, by decide!, by decide!, by decide!⟩
  intro a
  refine ⟨⟨?_, ?_⟩, ⟨?_, ?_⟩, ⟨?_, ?_⟩, ⟨?_, ?_⟩, ⟨?_, ?_⟩⟩
  · intro hocc
    by_contra h0
    exact not_occurs_char 'B' (by decide) (lapStats_not_mem_B h0) hocc
  · intro hc
    rw [lapStats]
    refine occurs_strJoin (show hrBlock (a.average_heartrate.getD 0) (a.max_heartrate.getD 0)
      ∈ _ by simp) ?_
    rw [hrBlock, if_pos hc]
    exact occurs_strJoin (show "\n        <AverageHeartRateBpm><Value>" ∈ _ by simp)
      (by rfl)
  · intro hocc
    by_contra h0
    exact not_occurs_char 'B' (by decide) (lapStats_not_mem_B h0) hocc
  · intro hc
    rw [lapStats]
    refine occurs_strJoin (show hrBlock (a.average_heartrate.getD 0) (a.max_heartrate.getD 0)
      ∈ _ by simp) ?_
    rw [hrBlock, if_pos hc]
    exact occurs_strJoin
      (show "</Value></AverageHeartRateBpm>\n        <MaximumHeartRateBpm><Value>" ∈ _
        by simp) (by rfl)
  · intro hocc
    by_contra h0
    exact not_occurs_char 'W' (by decide) (lapStats_not_mem_W h0) hocc
  · intro hc
    rw [lapStats]
    refine occurs_strJoin (show extBlock (a.average_watts.getD 0) (a.max_watts.getD 0)
      (a.average_cadence.getD 0) ∈ _ by simp) ?_
    rw [extBlock, if_pos (Or.inl hc)]
    refine occurs_strJoin (show lapWatts (a.average_watts.getD 0) (a.max_watts.getD 0) ∈ _
      by simp) ?_
    rw [lapWatts, if_pos hc]
    exact occurs_strJoin (show "\n            <ns3:AvgWatts>" ∈ _ by simp) (by rfl)
  · intro hocc
    by_contra h0
    exact not_occurs_char 'W' (by decide) (lapStats_not_mem_W h0) hocc
  · intro hc
    rw [lapStats]
    refine occurs_strJoin (show extBlock (a.average_watts.getD 0) (a.max_watts.getD 0)
      (a.average_cadence.getD 0) ∈ _ by simp) ?_
    rw [extBlock, if_pos (Or.inl hc)]
    refine occurs_strJoin (show lapWatts (a.average_watts.getD 0) (a.max_watts.getD 0) ∈ _
      by simp) ?_
    rw [lapWatts, if_pos hc]
    exact occurs_strJoin
      (show "</ns3:AvgWatts>\n            <ns3:MaxWatts>" ∈ _ by simp) (by rfl)
  · intro hocc
    by_contra h0
    exact not_occurs_pair (by rfl) (lapStats_pfRu h0) hocc
  · intro hc
    rw [lapStats]
    refine occurs_strJoin (show extBlock (a.average_watts.getD 0) (a.max_watts.getD 0)
      (a.average_cadence.getD 0) ∈ _ by simp) ?_
    rw [extBlock, if_pos (Or.inr hc)]
    refine occurs_strJoin (show lapCadence (a.average_cadence.getD 0) ∈ _ by simp) ?_
    rw [lapCadence, if_pos hc]
    exact occurs_strJoin (show "\n            <ns3:AvgRunCadence>" ∈ _ by simp) (by rfl)

/-- Claim C3: `get_sport_type` is a total function mapping Ride to Biking,
Run to Running, Swim to Swimming, Walk to Walking, Hike to Hiking,
VirtualRide to Biking, Workout to Other, and every other input string to
Other. -/
theorem c3_sport_type_total :
    get_sport_type "Ride" = "Biking" ∧ get_sport_type "Run" = "Running" ∧
    get_sport_type "Swim" = "Swimming" ∧ get_sport_type "Walk" = "Walking" ∧
    get_sport_type "Hike" = "Hiking" ∧ get_sport_type "VirtualRide" = "Biking" ∧
    get_sport_type "Workout" = "Other" ∧
    ∀ ty : String,
      ty ∉ (["Ride", "Run", "Swim", "Walk", "Hike", "VirtualRide", "Workout"] : List String) →
      get_sport_type ty = "Other" := by
  refine ⟨rfl, rfl, rfl, rfl, rfl, rfl, rfl, ?_⟩
  intro ty h
  simp only [List.mem_cons, List.not_mem_nil, or_false, not_or] at h
  obtain ⟨h1, h2, h3, h4, h5, h6, h7⟩ := h
  rw [get_sport_type, if_neg h1, if_neg h2, if_neg h3, if_neg h4, if_neg h5, if_neg h6,
    if_neg h7]

/-- Witness for C3 at the unmapped input `"Yoga"`. -/
theorem c3_witness : get_sport_type "Yoga" = "Other" :=
  c3_sport_type_total.2.2.2.2.2.2.2 "Yoga" (by decide)

/-- Claim C5: the converter is deterministic — two runs on equal inputs
produce equal results (the embedding is a pure function of the activity
and the stream bundle, with no other state). -/
theorem c5_converter_deterministic (a₁ a₂ : Activity) (s₁ s₂ : Option Streams)
    (ha : a₁ = a₂) (hs : s₁ = s₂) :
    convert_strava_to_tcx a₁ s₁ = convert_strava_to_tcx a₂ s₂ := by
  rw [ha, hs]

/-- Witness for C5 at a concrete input pair. -/
theorem c5_witness :
    convert_strava_to_tcx actRide (some strFull) =
      convert_strava_to_tcx actRide (some strFull) :=
  c5_converter_deterministic actRide actRide (some strFull) (some strFull) rfl rfl

/-- Claim C1 (amended): the converter returns the no-document sentinel
`None` iff the stream bundle is absent (or is the falsy empty dict, whose
`time` key is equally absent) or lacks a `time` entry, and on those inputs
it returns normally — it never throws.  When the `time` key is present,
even with an empty offset list, a document is produced instead (provided
the start date parses); so "empty time-offset sequence" does **not**
yield the sentinel. -/
theorem c1_none_iff_time_absent (a : Activity) (streams : Option Streams) :
    convert_strava_to_tcx a streams = Except.ok none ↔
      streams = none ∨ ∃ s, streams = some s ∧ s.time = none := by
  cases streams with
  | none => simp [convert_strava_to_tcx]
  | some s =>
    cases hts : s.time with
    | none =>
      simp only [convert_strava_to_tcx, hts]
      constructor
      · intro _
        exact Or.inr ⟨s, rfl, hts⟩
      · intro _
        trivial
    | some l =>
      simp only [convert_strava_to_tcx, hts]
      constructor
      · intro h
        cases hp : strptime a.start_date with
        | none => rw [hp] at h; cases h
        | some st => rw [hp] at h; cases h
      · rintro (h | ⟨s', hs', ht⟩)
        · cases h
        · injection hs' with e
          subst e
          rw [hts] at ht
          cases ht
  -- (the `match` on `strptime` returns `.error` or `.ok (some _)`, never
  -- `.ok none`, in the `some` branch)

/-- Counterexample to C1 as stated: a bundle whose time-offset sequence is
present but *empty* does not yield the sentinel — a document (with an
empty track) is produced. -/
theorem c1_counterexample :
    strEmptyTime.time = some [] ∧
    convert_strava_to_tcx actRide (some strEmptyTime) =
      Except.ok (some (tcxDoc actRide strEmptyTime 1717236000)) ∧
    convert_strava_to_tcx actRide (some strEmptyTime) ≠ Except.ok none := by
  refine ⟨rfl, by decide!, by decide!⟩

/-- Claim C6 (code-bug evidence): the activity name is interpolated into
the `Notes` element with no XML escaping.  With name `"Run & Coffee"` the
produced document contains the two-character sequence `"& "` — a bare
ampersand not starting an entity or character reference.  No well-formed
XML document can contain `"& "` (after `&` the grammar requires a name
start character or `#`), so this output does not parse as XML, against
the claim. -/
theorem c6_unescaped_ampersand :
    convert_strava_to_tcx actAmp (some strEmptyTime) =
      Except.ok (some (tcxDoc actAmp strEmptyTime 1717236000)) ∧
    Occurs "<Notes>Run & Coffee</Notes>" (tcxDoc actAmp strEmptyTime 1717236000) ∧
    pairFree '&' ' ' (tcxDoc actAmp strEmptyTime 1717236000).data = false := by
  refine ⟨by decide!, by decide!, by decide!⟩

theorem strJoin_data_append (L1 L2 : List String) :
    (strJoin (L1 ++ L2)).data = (strJoin L1).data ++ (strJoin L2).data := by
  induction L1 with
  | nil => simp [strJoin, data_empty]
  | cons x rest ih => simp [strJoin, String.data_append, ih]

/-- A pattern `p1 ++ val ++ p2` occurs in a join containing the
consecutive pieces `A, val, B` where `p1` is a suffix of `A` and `p2` a
prefix of `B`. -/
theorem occurs_mid (p1 val p2 pre post A B : String)
    (hA : A.data = pre.data ++ p1.data) (hB : B.data = p2.data ++ post.data)
    (L1 L3 : List String) :
    occursB (p1 ++ val ++ p2).data (strJoin (L1 ++ [A, val, B] ++ L3)).data = true := by
  rw [strJoin_data_append, strJoin_data_append]
  refine (occursB_iff _ _).mpr
    ⟨(strJoin L1).data ++ pre.data, post.data ++ (strJoin L3).data, ?_⟩
  simp [strJoin, String.data_append, data_empty, hA, hB]

/-- Claim C10: heart-rate, cadence, watts and temperature values — lap
averages/maxima and per-track-point samples — pass through `int()`
(`pyInt`, truncation toward zero: magnitude shrinks to the nearest
integer toward zero, never growing) before emission, while distance,
maximum speed, altitude, and latitude/longitude are emitted verbatim:
their emitted text is the rendering `pyRepr` of the source value itself,
with no truncation applied. -/
theorem c10_truncation_and_verbatim :
    (∀ q : ℚ, (0 ≤ q → (pyInt q : ℚ) ≤ q ∧ q - 1 < (pyInt q : ℚ)) ∧
      (q < 0 → q ≤ (pyInt q : ℚ) ∧ (pyInt q : ℚ) < q + 1)) ∧
    (∀ a : Activity,
      Occurs ("<DistanceMeters>" ++ pyRepr a.distance ++ "</DistanceMeters>")
        (headerStr a)) ∧
    (∀ a : Activity, ∀ v : ℚ, a.max_speed = some v →
      Occurs ("<MaximumSpeed>" ++ pyRepr v ++ "</MaximumSpeed>") (headerStr a)) ∧
    (∀ a : Activity, a.average_heartrate.getD 0 ≠ 0 →
      Occurs ("<AverageHeartRateBpm><Value>" ++
        intStr (pyInt (a.average_heartrate.getD 0)) ++ "</Value></AverageHeartRateBpm>")
        (lapStats a) ∧
      Occurs ("<MaximumHeartRateBpm><Value>" ++
        intStr (pyInt (a.max_heartrate.getD 0)) ++ "</Value></MaximumHeartRateBpm>")
        (lapStats a)) ∧
    (∀ a : Activity, a.average_watts.getD 0 ≠ 0 →
      Occurs ("<ns3:AvgWatts>" ++ intStr (pyInt (a.average_watts.getD 0)) ++
        "</ns3:AvgWatts>") (lapStats a) ∧
      Occurs ("<ns3:MaxWatts>" ++ intStr (pyInt (a.max_watts.getD 0)) ++
        "</ns3:MaxWatts>") (lapStats a)) ∧
    (∀ a : Activity, a.average_cadence.getD 0 ≠ 0 →
      Occurs ("<ns3:AvgRunCadence>" ++ intStr (pyInt (a.average_cadence.getD 0)) ++
        "</ns3:AvgRunCadence>") (lapStats a)) ∧
    (∀ (st : ℤ) (s : Streams) (i : ℕ) (t : ℤ) (v : ℚ),
      ((s.heartrate.getD [])[i]? = some v →
        Occurs ("<HeartRateBpm><Value>" ++ intStr (pyInt v) ++ "</Value></HeartRateBpm>")
          (trackpoint st s i t)) ∧
      ((s.cadence.getD [])[i]? = some v →
        Occurs ("<Cadence>" ++ intStr (pyInt v) ++ "</Cadence>") (trackpoint st s i t)) ∧
      ((s.watts.getD [])[i]? = some v →
        Occurs ("<ns3:Watts>" ++ intStr (pyInt v) ++ "</ns3:Watts>")
          (trackpoint st s i t)) ∧
      ((s.temp.getD [])[i]? = some v →
        Occurs ("<ns3:AirTemperature>" ++ intStr (pyInt v) ++ "</ns3:AirTemperature>")
          (trackpoint st s i t)) ∧
      ((s.altitude.getD [])[i]? = some v →
        Occurs ("<AltitudeMeters>" ++ pyRepr v ++ "</AltitudeMeters>")
          (trackpoint st s i t))) ∧
    (∀ (st : ℤ) (s : Streams) (i : ℕ) (t : ℤ) (lat lng : ℚ),
      (s.latlng.getD [])[i]? = some (lat, lng) →
        Occurs ("<LatitudeDegrees>" ++ pyRepr lat ++ "</LatitudeDegrees>")
          (trackpoint st s i t) ∧
        Occurs ("<LongitudeDegrees>" ++ pyRepr lng ++ "</LongitudeDegrees>")
          (trackpoint st s i t)) := by
  refine ⟨?_, ?_, ?_, ?_, ?_, ?_, ?_, ?_⟩
  · intro q
    constructor
    · intro h
      rw [pyInt, if_pos h]
      exact ⟨Int.floor_le q, Int.sub_one_lt_floor q⟩
    · intro h
      rw [pyInt, if_neg (not_le.mpr h)]
      exact ⟨Int.le_ceil q, by exact_mod_cast Int.ceil_lt_add_one q⟩
  · intro a
    rw [headerStr]
    exact occurs_mid "<DistanceMeters>" (pyRepr a.distance) "</DistanceMeters>"
      "</TotalTimeSeconds>\n        " "\n        <MaximumSpeed>" _ _ rfl rfl
      ["<?xml version=\"1.0\" encoding=\"UTF-8\"?>\n<TrainingCenterDatabase xmlns=\"http://www.garmin.com/xmlschemas/TrainingCenterDatabase/v2\"\n                        xmlns:ns3=\"http://www.garmin.com/xmlschemas/ActivityExtension/v2\">\n  <Activities>\n    <Activity Sport=\"",
       get_sport_type a.type, "\">\n      <Id>", a.start_date, "</Id>\n      <Notes>",
       notesStr a, "</Notes>\n      <Lap StartTime=\"", a.start_date,
       "\">\n        <TotalTimeSeconds>", intStr a.elapsed_time]
      [(match a.max_speed with | some v => pyRepr v | none => "0"),
       "</MaximumSpeed>\n        <Calories>",
       (match a.calories with | some v => pyRepr v | none => "0"), "</Calories>"]
  · intro a v h
    rw [headerStr,
      show (match a.max_speed with | some v => pyRepr v | none => "0") = pyRepr v from
        by rw [h]]
    exact occurs_mid "<MaximumSpeed>" (pyRepr v) "</MaximumSpeed>"
      "</DistanceMeters>\n        " "\n        <Calories>" _ _ rfl rfl
      ["<?xml version=\"1.0\" encoding=\"UTF-8\"?>\n<TrainingCenterDatabase xmlns=\"http://www.garmin.com/xmlschemas/TrainingCenterDatabase/v2\"\n                        xmlns:ns3=\"http://www.garmin.com/xmlschemas/ActivityExtension/v2\">\n  <Activities>\n    <Activity Sport=\"",
       get_sport_type a.type, "\">\n      <Id>", a.start_date, "</Id>\n      <Notes>",
       notesStr a, "</Notes>\n      <Lap StartTime=\"", a.start_date,
       "\">\n        <TotalTimeSeconds>", intStr a.elapsed_time,
       "</TotalTimeSeconds>\n        <DistanceMeters>", pyRepr a.distance]
      [(match a.calories with | some v => pyRepr v | none => "0"), "</Calories>"]
  · intro a hc
    constructor
    · rw [lapStats]
      refine occurs_strJoin
        (show hrBlock (a.average_heartrate.getD 0) (a.max_heartrate.getD 0) ∈ _
          by simp) ?_
      rw [hrBlock, if_pos hc]
      exact occurs_mid "<AverageHeartRateBpm><Value>"
        (intStr (pyInt (a.average_heartrate.getD 0))) "</Value></AverageHeartRateBpm>"
        "\n        " "\n        <MaximumHeartRateBpm><Value>" _ _ rfl rfl []
        [intStr (pyInt (a.max_heartrate.getD 0)), "</Value></MaximumHeartRateBpm>"]
    · rw [lapStats]
      refine occurs_strJoin
        (show hrBlock (a.average_heartrate.getD 0) (a.max_heartrate.getD 0) ∈ _
          by simp) ?_
      rw [hrBlock, if_pos hc]
      exact occurs_mid "<MaximumHeartRateBpm><Value>"
        (intStr (pyInt (a.max_heartrate.getD 0))) "</Value></MaximumHeartRateBpm>"
        "</Value></AverageHeartRateBpm>\n        " "" _ _ rfl rfl
        ["\n        <AverageHeartRateBpm><Value>",
         intStr (pyInt (a.average_heartrate.getD 0))] []
  · intro a hw
    constructor
    · rw [lapStats]
      refine occurs_strJoin (show extBlock (a.average_watts.getD 0) (a.max_watts.getD 0)
        (a.average_cadence.getD 0) ∈ _ by simp) ?_
      rw [extBlock, if_pos (Or.inl hw)]
      refine occurs_strJoin
        (show lapWatts (a.average_watts.getD 0) (a.max_watts.getD 0) ∈ _ by simp) ?_
      rw [lapWatts, if_pos hw]
      exact occurs_mid "<ns3:AvgWatts>" (intStr (pyInt (a.average_watts.getD 0)))
        "</ns3:AvgWatts>" "\n            " "\n            <ns3:MaxWatts>" _ _ rfl rfl []
        [intStr (pyInt (a.max_watts.getD 0)), "</ns3:MaxWatts>"]
    · rw [lapStats]
      refine occurs_strJoin (show extBlock (a.average_watts.getD 0) (a.max_watts.getD 0)
        (a.average_cadence.getD 0) ∈ _ by simp) ?_
      rw [extBlock, if_pos (Or.inl hw)]
      refine occurs_strJoin
        (show lapWatts (a.average_watts.getD 0) (a.max_watts.getD 0) ∈ _ by simp) ?_
      rw [lapWatts, if_pos hw]
      exact occurs_mid "<ns3:MaxWatts>" (intStr (pyInt (a.max_watts.getD 0)))
        "</ns3:MaxWatts>" "</ns3:AvgWatts>\n            " "" _ _ rfl rfl
        ["\n            <ns3:AvgWatts>", intStr (pyInt (a.average_watts.getD 0))] []
  · intro a hc
    rw [lapStats]
    refine occurs_strJoin (show extBlock (a.average_watts.getD 0) (a.max_watts.getD 0)
      (a.average_cadence.getD 0) ∈ _ by simp) ?_
    rw [extBlock, if_pos (Or.inr hc)]
    refine occurs_strJoin (show lapCadence (a.average_cadence.getD 0) ∈ _ by simp) ?_
    rw [lapCadence, if_pos hc]
    exact occurs_mid "<ns3:AvgRunCadence>" (intStr (pyInt (a.average_cadence.getD 0)))
      "</ns3:AvgRunCadence>" "\n            " "" _ _ rfl rfl [] []
  · intro st s i t v
    refine ⟨?_, ?_, ?_, ?_, ?_⟩
    · intro h
      rw [trackpoint]
      refine occurs_strJoin
        (show renderTpHr (s.heartrate.getD [])[i]? ∈ trackpointPieces st s i t
          by simp [trackpointPieces]) ?_
      rw [h, renderTpHr]
      exact occurs_mid "<HeartRateBpm><Value>" (intStr (pyInt v)) "</Value></HeartRateBpm>"
        "            " "\n" _ _ rfl rfl [] []
    · intro h
      rw [trackpoint]
      refine occurs_strJoin
        (show renderCad (s.cadence.getD [])[i]? ∈ trackpointPieces st s i t
          by simp [trackpointPieces]) ?_
      rw [h, renderCad]
      exact occurs_mid "<Cadence>" (intStr (pyInt v)) "</Cadence>"
        "            " "\n" _ _ rfl rfl [] []
    · intro h
      rw [trackpoint]
      refine occurs_strJoin
        (show renderTpExt (s.watts.getD [])[i]? (s.temp.getD [])[i]?
          ∈ trackpointPieces st s i t by simp [trackpointPieces]) ?_
      rw [h]
      have hw : occursB ("<ns3:Watts>" ++ intStr (pyInt v) ++ "</ns3:Watts>").data
          (wattsLine (some v)).data = true := by
        rw [wattsLine]
        exact occurs_mid "<ns3:Watts>" (intStr (pyInt v)) "</ns3:Watts>"
          "                " "\n" _ _ rfl rfl [] []
      cases htm : (s.temp.getD [])[i]? with
      | none =>
        exact occurs_strJoin (show wattsLine (some v) ∈
          ["            <Extensions>\n              <ns3:TPX>\n", wattsLine (some v),
           tempLine none, "              </ns3:TPX>\n            </Extensions>\n"]
          by simp) hw
      | some w =>
        exact occurs_strJoin (show wattsLine (some v) ∈
          ["            <Extensions>\n              <ns3:TPX>\n", wattsLine (some v),
           tempLine (some w), "              </ns3:TPX>\n            </Extensions>\n"]
          by simp) hw
    · intro h
      rw [trackpoint]
      refine occurs_strJoin
        (show renderTpExt (s.watts.getD [])[i]? (s.temp.getD [])[i]?
          ∈ trackpointPieces st s i t by simp [trackpointPieces]) ?_
      rw [h]
      have ht : occursB ("<ns3:AirTemperature>" ++ intStr (pyInt v) ++
          "</ns3:AirTemperature>").data (tempLine (some v)).data = true := by
        rw [tempLine]
        exact occurs_mid "<ns3:AirTemperature>" (intStr (pyInt v)) "</ns3:AirTemperature>"
          "                " "\n" _ _ rfl rfl [] []
      cases hw : (s.watts.getD [])[i]? with
      | none =>
        exact occurs_strJoin (show tempLine (some v) ∈
          ["            <Extensions>\n              <ns3:TPX>\n", wattsLine none,
           tempLine (some v), "              </ns3:TPX>\n            </Extensions>\n"]
          by simp) ht
      | some w =>
        exact occurs_strJoin (show tempLine (some v) ∈
          ["            <Extensions>\n              <ns3:TPX>\n", wattsLine (some w),
           tempLine (some v), "              </ns3:TPX>\n            </Extensions>\n"]
          by simp) ht
    · intro h
      rw [trackpoint]
      refine occurs_strJoin
        (show renderAlt (s.altitude.getD [])[i]? ∈ trackpointPieces st s i t
          by simp [trackpointPieces]) ?_
      rw [h, renderAlt]
      exact occurs_mid "<AltitudeMeters>" (pyRepr v) "</AltitudeMeters>"
        "            " "\n" _ _ rfl rfl [] []
  · intro st s i t lat lng h
    constructor
    · rw [trackpoint]
      refine occurs_strJoin
        (show renderPos (s.latlng.getD [])[i]? ∈ trackpointPieces st s i t
          by simp [trackpointPieces]) ?_
      rw [h, renderPos]
      exact occurs_mid "<LatitudeDegrees>" (pyRepr lat) "</LatitudeDegrees>"
        "            <Position>\n              " "\n              <LongitudeDegrees>" _ _
        rfl rfl [] [pyRepr lng, "</LongitudeDegrees>\n            </Position>\n"]
    · rw [trackpoint]
      refine occurs_strJoin
        (show renderPos (s.latlng.getD [])[i]? ∈ trackpointPieces st s i t
          by simp [trackpointPieces]) ?_
      rw [h, renderPos]
      exact occurs_mid "<LongitudeDegrees>" (pyRepr lng) "</LongitudeDegrees>"
        "</LatitudeDegrees>\n              " "\n            </Position>\n" _ _
        rfl rfl ["            <Position>\n              <LatitudeDegrees>", pyRepr lat] []

/-- Counterexample to C7 as stated: when the submission call raises, the
`except` handler is entered *before* `os.remove` runs, so the transient
file is **not** deleted — it remains on disk while the helper returns the
failure sentinel. -/
theorem c7_counterexample :
    upload_to_garmin (PyResult.exc "GarthHTTPError" : PyResult Bool) 5 "doc" ⟨[]⟩ =
      ((none : Option Bool), (⟨["/tmp/strava_activity_5.tcx"]⟩ : FS)) ∧
    "/tmp/strava_activity_5.tcx" ∈
      (upload_to_garmin (PyResult.exc "GarthHTTPError" : PyResult Bool) 5 "doc"
        (⟨[]⟩ : FS)).2.files := by
  refine ⟨by decide!, by decide!⟩

/-- Claim C7 (amended): `upload_to_garmin` never propagates an exception:
on a normal return of the submission call it returns the submission
result and the transient file has been written and deleted (the
filesystem is unchanged); when the submission call raises, it logs,
returns the `None` sentinel, and the transient file is left in place
(the `os.remove` after the call is skipped). -/
theorem c7_upload_cleanup {α : Type} (outcome : PyResult α) (now : ℤ)
    (tcx_data : String) (fs : FS) (hfresh : tempName now ∉ fs.files) :
    (∀ r, outcome = PyResult.ok r →
      upload_to_garmin outcome now tcx_data fs = (some r, fs)) ∧
    (∀ e, outcome = PyResult.exc e →
      upload_to_garmin outcome now tcx_data fs = (none, ⟨tempName now :: fs.files⟩)) := by
  constructor
  · rintro r rfl
    rw [upload_to_garmin]
    rw [pyWrite, if_neg hfresh]
    rw [pyRemove, if_pos (List.mem_cons_self _ _)]
    rw [List.erase_cons_head]
  · rintro e rfl
    rw [upload_to_garmin]
    rw [pyWrite, if_neg hfresh]

/-- Witness for C7 (amended) at a concrete successful upload. -/
theorem c7_witness :
    upload_to_garmin (PyResult.ok true) 5 "doc" (⟨[]⟩ : FS) = (some true, ⟨[]⟩) :=
  (c7_upload_cleanup (PyResult.ok true) 5 "doc" ⟨[]⟩ (by decide)).1 true rfl

/-- Counterexample to C8 as stated: an activity skipped as a duplicate
takes the `continue` path, which jumps to the next iteration *without*
reaching `time.sleep(2)` — no pause event is in its trace. -/
theorem c8_counterexample :
    processActivity oracleDup actRide = PyResult.ok ([Event.checkedDuplicate], 0, 1) ∧
    Event.slept 2 ∉ [Event.checkedDuplicate] := by
  refine ⟨by decide!, by decide⟩

/-- Claim C8 (amended): the fixed 2-second pause occurs in an iteration's
trace iff the iteration reaches the upload attempt — the activity is not
a duplicate, the downloaded bundle is truthy, and conversion produced a
truthy document.  The three `continue` paths (duplicate, no stream data,
conversion failure) skip the pause. -/
theorem c8_sleep_only_after_upload (o : Oracle) (a : Activity) (ev : List Event)
    (u s : ℕ) (h : processActivity o a = PyResult.ok (ev, u, s)) :
    Event.slept 2 ∈ ev ↔
      (o.isDuplicate = false ∧ streamsTruthy o.streams = true ∧
       convertTruthy a o.streams = true) := by
  rw [processActivity] at h
  cases hp : strptime a.start_date with
  | none => rw [hp] at h; cases h
  | some st =>
    rw [hp] at h
    dsimp only [] at h
    by_cases hd : o.isDuplicate = true
    · rw [if_pos hd] at h
      injection h with h1
      simp only [Prod.mk.injEq] at h1
      obtain ⟨rfl, rfl, rfl⟩ := h1
      simp [hd]
    · rw [if_neg hd] at h
      rw [Bool.not_eq_true] at hd
      by_cases hs : streamsTruthy o.streams = false
      · rw [if_pos hs] at h
        injection h with h1
        simp only [Prod.mk.injEq] at h1
        obtain ⟨rfl, rfl, rfl⟩ := h1
        simp [hs]
      · rw [if_neg hs] at h
        rw [Bool.not_eq_false] at hs
        cases hcv : convert_strava_to_tcx a o.streams with
        | error e => rw [hcv] at h; cases h
        | ok tcx =>
          rw [hcv] at h
          dsimp only [] at h
          have hct : convertTruthy a o.streams = tcxTruthy tcx := by
            rw [convertTruthy, hcv]
          by_cases htx : tcxTruthy tcx = false
          · rw [if_pos htx] at h
            injection h with h1
            simp only [Prod.mk.injEq] at h1
            obtain ⟨rfl, rfl, rfl⟩ := h1
            simp [hct, htx]
          · rw [if_neg htx] at h
            rw [Bool.not_eq_false] at htx
            cases hur : o.uploadResult with
            | none =>
              rw [hur] at h
              injection h with h1
              simp only [Prod.mk.injEq] at h1
              obtain ⟨rfl, rfl, rfl⟩ := h1
              simp [hd, hs, hct, htx]
            | some b =>
              rw [hur] at h
              cases b with
              | true =>
                injection h with h1
                simp only [Prod.mk.injEq] at h1
                obtain ⟨rfl, rfl, rfl⟩ := h1
                simp [hd, hs, hct, htx]
              | false =>
                injection h with h1
                simp only [Prod.mk.injEq] at h1
                obtain ⟨rfl, rfl, rfl⟩ := h1
                simp [hd, hs, hct, htx]

/-- Witness for C8 (amended): a fully processed activity's trace contains
the pause. -/
theorem c8_witness :
    Event.slept 2 ∈ [Event.checkedDuplicate, Event.downloadedStreams,
      Event.convertAttempted, Event.uploadAttempted, Event.slept 2] :=
  (c8_sleep_only_after_upload oracleFull actRide _ 1 0 (by decide!)).mpr (by decide!)

/-- Claim C9: every processed activity increments exactly one of the two
counters, so over any run of the loop the uploaded count plus the skipped
count equals the number of activities processed. -/
theorem c9_counters_partition :
    (∀ (o : Oracle) (a : Activity) (ev : List Event) (u s : ℕ),
      processActivity o a = PyResult.ok (ev, u, s) → u + s = 1) ∧
    (∀ (l : List (Oracle × Activity)) (u s : ℕ),
      runLoop l = PyResult.ok (u, s) → u + s = l.length) := by
  have part1 : ∀ (o : Oracle) (a : Activity) (ev : List Event) (u s : ℕ),
      processActivity o a = PyResult.ok (ev, u, s) → u + s = 1 := by
    intro o a ev u s h
    rw [processActivity] at h
    cases hp : strptime a.start_date with
    | none => rw [hp] at h; cases h
    | some st =>
      rw [hp] at h
      dsimp only [] at h
      by_cases hd : o.isDuplicate = true
      · rw [if_pos hd] at h
        injection h with h1
        simp only [Prod.mk.injEq] at h1
        omega
      · rw [if_neg hd] at h
        by_cases hs : streamsTruthy o.streams = false
        · rw [if_pos hs] at h
          injection h with h1
          simp only [Prod.mk.injEq] at h1
          omega
        · rw [if_neg hs] at h
          cases hcv : convert_strava_to_tcx a o.streams with
          | error e => rw [hcv] at h; cases h
          | ok tcx =>
            rw [hcv] at h
            dsimp only [] at h
            by_cases htx : tcxTruthy tcx = false
            · rw [if_pos htx] at h
              injection h with h1
              simp only [Prod.mk.injEq] at h1
              omega
            · rw [if_neg htx] at h
              cases hur : o.uploadResult with
              | none =>
                rw [hur] at h
                injection h with h1
                simp only [Prod.mk.injEq] at h1
                omega
              | some b =>
                rw [hur] at h
                cases b with
                | true =>
                  injection h with h1
                  simp only [Prod.mk.injEq] at h1
                  omega
                | false =>
                  injection h with h1
                  simp only [Prod.mk.injEq] at h1
                  omega
  refine ⟨part1, ?_⟩
  intro l
  induction l with
  | nil =>
    intro u s h
    injection h with h1
    simp only [Prod.mk.injEq] at h1
    simp [List.length_nil]
    omega
  | cons x rest ih =>
    intro u s h
    obtain ⟨o, a⟩ := x
    rw [runLoop] at h
    cases hpa : processActivity o a with
    | exc e => rw [hpa] at h; cases h
    | ok triple =>
      obtain ⟨ev, u1, s1⟩ := triple
      rw [hpa] at h
      cases hrl : runLoop rest with
      | exc e => rw [hrl] at h; cases h
      | ok pair =>
        obtain ⟨u', s'⟩ := pair
        rw [hrl] at h
        injection h with h1
        simp only [Prod.mk.injEq] at h1
        obtain ⟨rfl, rfl⟩ : u1 + u' = u ∧ s1 + s' = s := ⟨h1.1, h1.2⟩
        have e1 := part1 o a ev u1 s1 hpa
        have e2 := ih u' s' hrl
        simp only [List.length_cons]
        omega

/-- Witness for C9 at a concrete two-activity run (one uploaded, one
skipped as duplicate). -/
theorem c9_witness :
    (1 : ℕ) + 1 =
      ([(oracleFull, actRide), (oracleDup, actRide)] : List (Oracle × Activity)).length :=
  c9_counters_partition.2 [(oracleFull, actRide), (oracleDup, actRide)] 1 1 (by decide!)

/-- Witness for C2 at index 0 of the concrete bundle: the altitude entry
is present and emitted with its value; the watts field is absent and not
emitted. -/
theorem c2_witness :
    Occurs ("            <AltitudeMeters>" ++ pyRepr (201/2 : ℚ) ++ "</AltitudeMeters>\n")
      (trackpoint 1717236000 strFull 0 0) ∧
    ¬ Occurs "<ns3:Watts>" (trackpoint 1717236000 strFull 0 0) :=
  ⟨(c2_trackpoint_optional_fields 1717236000 strFull 0 0).2.2.1 (201/2) (by decide!),
   (c2_trackpoint_optional_fields 1717236000 strFull 0 0).2.2.2.2.2.2.2.2.2.1 (by decide!)⟩

/-- Witness for C4 at the concrete Ride activity. -/
theorem c4_witness : Occurs "<AverageHeartRateBpm>" (lapStats actRide) :=
  (c4_lap_conditional_blocks.1 actRide).1.mpr (by decide!)

/-- Witness for C10: truncation toward zero at the negative input `-7/2`. -/
theorem c10_witness :
    (-7/2 : ℚ) ≤ (pyInt (-7/2 : ℚ) : ℚ) ∧ (pyInt (-7/2 : ℚ) : ℚ) < -7/2 + 1 :=
  (c10_truncation_and_verbatim.1 (-7/2)).2 (by decide!)

end StoG
